import Mathlib

/-!
Shallow embedding of the langfuse LangChain callback handler
(`langfuse/callback.py`) and proofs about its specification.

The `CallbackHandler` class is modelled as a state-transition system:
every notification method becomes a function in a Python-like monad `PyM`
(state threading plus exceptions whose partial state mutations persist,
matching CPython semantics), and the `try/except` wrapper around every
method body becomes `tryExcept`, which converts an exception into a log
entry and a normal return.

Python runtime values (the `Any`-typed payloads flowing through the
handler) are modelled by the inductive type `Value`; Python `dict`s are
insertion-ordered association lists with first-match lookup and
replace-in-place/append-at-end update, matching CPython `dict` semantics
for duplicate-free key lists.
-/

/-- A Python runtime value as it flows through the callback handler:
`vnone` is `None`, `vexc` is an exception object (carrying the string
`str` would produce for it), `vdict` is an insertion-ordered dictionary
with string keys, and `vnum m e` is the decimal literal `m * 10 ^ (-e)`
(floats only travel through the handler opaquely, so a decimal
representation is faithful). -/
inductive Value where
  | vnone : Value
  | vbool : Bool → Value
  | vint : Int → Value
  | vnum : Int → Nat → Value
  | vstr : String → Value
  | vexc : String → Value
  | vlist : List Value → Value
  | vdict : List (String × Value) → Value

/-- Python `v is None`. -/
def Value.isNone : Value → Bool
  | .vnone => true
  | _ => false

/-- First-match lookup in an association list, as CPython `dict` lookup
(dict keys are unique, so first match is the match). -/
def lookupKey {β : Type} (es : List (String × β)) (k : String) : Option β :=
  (es.find? (fun kv => kv.1 == k)).map (fun kv => kv.2)

/-- Python `k in d`. -/
def hasKey {β : Type} (es : List (String × β)) (k : String) : Bool :=
  es.any (fun kv => kv.1 == k)

/-- Python `d[k] = v`: replace in place when the key exists (keeping its
position), append at the end otherwise. -/
def setKey {β : Type} (es : List (String × β)) (k : String) (v : β) :
    List (String × β) :=
  if es.any (fun kv => kv.1 == k) then
    es.map (fun kv => if kv.1 == k then (k, v) else kv)
  else
    es ++ [(k, v)]

/-- Python `d.update(other)`: write every entry of `other`, in order,
into `d`. -/
def updateDict {β : Type} (es other : List (String × β)) :
    List (String × β) :=
  other.foldl (fun acc kv => setKey acc kv.1 kv.2) es

/-- Python `d.get(k, dflt)` where the receiver may be any runtime value:
on a non-dict receiver the attribute access raises. A key present with
value `None` returns that `None`, not the default, as in Python. -/
def pyGetDefault (v : Value) (k : String) (dflt : Value) :
    Except String Value :=
  match v with
  | .vdict es => .ok ((lookupKey es k).getD dflt)
  | _ => .error "AttributeError"

/-- Python `d[k]` subscripting on a runtime value. -/
def pySubscript (v : Value) (k : String) : Except String Value :=
  match v with
  | .vdict es =>
    match lookupKey es k with
    | some x => .ok x
    | none => .error "KeyError"
  | _ => .error "TypeError"

/-- Python `v[-1]`: last character of a string (as a one-character
string), last element of a list; everything else raises. -/
def pySubscriptLast (v : Value) : Except String Value :=
  match v with
  | .vstr s =>
    if s.isEmpty then .error "IndexError"
    else .ok (.vstr (String.singleton s.back))
  | .vlist xs =>
    match xs.getLast? with
    | some x => .ok x
    | none => .error "IndexError"
  | .vdict _ => .error "KeyError"
  | _ => .error "TypeError"

/-- Python `xs[-1]` on a typed list. -/
def listLast {α : Type} (xs : List α) : Except String α :=
  match xs.getLast? with
  | some x => .ok x
  | none => .error "IndexError"

/-- An `Optional[str]` argument forwarded into a `**kwargs` dictionary. -/
def optValue : Option String → Value
  | some s => .vstr s
  | none => .vnone

/-- The fallback of `CallbackHandler.get_langchain_run_name`
(callback.py line 205), exactly as written in the source:
`serialized.get("name", serialized.get("id", ["<unknown>"]))[-1]` —
note that the `[-1]` applies to the result of the outer `.get`. -/
def runNameFallback (serialized : Value) : Except String Value := do
  let idDefault ← pyGetDefault serialized "id" (.vlist [.vstr "<unknown>"])
  let nm ← pyGetDefault serialized "name" idDefault
  pySubscriptLast nm

/-- Embedding of `CallbackHandler.get_langchain_run_name`
(callback.py lines 186-205): the `name` override from `kwargs` is
returned as-is when present and non-null; otherwise the serialized
fallback expression is evaluated. -/
def get_langchain_run_name (serialized : Value)
    (kwargs : List (String × Value)) : Except String Value :=
  match lookupKey kwargs "name" with
  | some v => if v.isNone then runNameFallback serialized else .ok v
  | none => runNameFallback serialized

/-- The name expression inside the debug log line of
`CallbackHandler.on_chain_start` (callback.py line 245):
`serialized.get('name', serialized.get('id', ['<unknown>'])[-1])` —
here the `[-1]` applies only to the inner default, and the expression
is evaluated (and can raise) before anything else in the method body. -/
def chainStartDebugName (serialized : Value) : Except String Value := do
  let idv ← pyGetDefault serialized "id" (.vlist [.vstr "<unknown>"])
  let lastId ← pySubscriptLast idv
  pyGetDefault serialized "name" lastId

/-- Embedding of `CallbackHandler.__join_tags_and_metadata`
(callback.py lines 778-791). -/
def join_tags_and_metadata (tags : Option (List String))
    (metadata : Option (List (String × Value))) :
    Option (List (String × Value)) :=
  match tags, metadata with
  | none, none => none
  | some ts, md =>
    if ts.length > 0 then
      some
        (match md with
          | some m => updateDict [("tags", .vlist (ts.map .vstr))] m
          | none => [("tags", .vlist (ts.map .vstr))])
    else md
  | none, some m => some m

/-- A model response candidate (`langchain` `Generation` /
`ChatGeneration`): `text` is `None` when absent, `message` is only
present on chat candidates (attribute access on a plain candidate
raises). -/
structure Candidate where
  text : Option String
  messageAdditionalKwargs : Option (List (String × Value))

/-- Python `str.strip()`: drop leading and trailing whitespace
(modelled over the character list; Python also strips some non-ASCII
whitespace, which no payload here carries). -/
def pyStrip (s : String) : String :=
  String.mk
    (((s.data.dropWhile Char.isWhitespace).reverse.dropWhile
      Char.isWhitespace).reverse)

/-- Embedding of the module-level `_extract_response`
(callback.py lines 818-827): stripped text when present and non-empty
after stripping, otherwise the message's `additional_kwargs`. -/
def extract_response (c : Candidate) : Except String Value :=
  if (match c.text with
      | some t => decide (pyStrip t ≠ "")
      | none => false) then
    .ok (.vstr (pyStrip (c.text.getD "")))
  else
    match c.messageAdditionalKwargs with
    | some m => .ok (.vdict m)
    | none => .error "AttributeError"

/-- Embedding of the `model_parameters` dict comprehension inside
`CallbackHandler.__on_llm_action` (callback.py lines 657-674): the six
candidate keys are read with `.get` from `kwargs["invocation_params"]`
and entries whose value is `None` are filtered out. -/
def modelParamsRaw (invocationParams : Value) :
    Except String (List (String × Value)) := do
  let temperature ← pyGetDefault invocationParams "temperature" .vnone
  let maxTokens ← pyGetDefault invocationParams "max_tokens" .vnone
  let topP ← pyGetDefault invocationParams "top_p" .vnone
  let frequencyPenalty ← pyGetDefault invocationParams "frequency_penalty" .vnone
  let presencePenalty ← pyGetDefault invocationParams "presence_penalty" .vnone
  let requestTimeout ← pyGetDefault invocationParams "request_timeout" .vnone
  pure (List.filter (fun kv => !kv.2.isNone)
    [("temperature", temperature), ("max_tokens", maxTokens),
     ("top_p", topP), ("frequency_penalty", frequencyPenalty),
     ("presence_penalty", presencePenalty),
     ("request_timeout", requestTimeout)])

/-- The specification's description of the model-parameter extraction
(spec section 4.3), written from the spec's words for comparison with
`modelParamsRaw`: keep exactly the keys among the six whose value in
the invocation parameters is present and non-null, with those same
values. -/
def specModelParams (ip : List (String × Value)) : List (String × Value) :=
  ["temperature", "max_tokens", "top_p", "frequency_penalty",
   "presence_penalty", "request_timeout"].filterMap
    (fun k =>
      match lookupKey ip k with
      | some v => if v.isNone then none else some (k, v)
      | none => none)

/-- Observation severity, from
`langfuse/api/resources/commons/types/observation_level.py`. -/
inductive ObservationLevel where
  | DEBUG : ObservationLevel
  | DEFAULT : ObservationLevel
  | WARNING : ObservationLevel
  | ERROR : ObservationLevel
deriving DecidableEq

/-- The stateful trace client held in `self.trace`. Modelled from the
spec: `StatefulTraceClient` lives in `langfuse/client.py`, which is not
among the sources; per spec section 3 a `TraceHandle` carries
`{id, name, metadata, session_id, user_id, input, output}` plus the
version tag captured at construction. -/
structure StatefulTrace where
  id : String
  name : Value
  metadata : Option (List (String × Value))
  sessionId : Option String
  userId : Option String
  version : Option String
  input : Value
  output : Value

/-- Kind tag of a non-trace observation handle (spec section 3's tagged
variant, restricted to the kinds the registry can hold). -/
inductive ObservationKind where
  | span : ObservationKind
  | generation : ObservationKind
deriving DecidableEq

/-- A stateful span/generation client as stored in `self.runs`.
Modelled from the spec: `StatefulSpanClient` / the generation client
live in `langfuse/client.py`, absent from the sources; per spec
section 3 a handle carries id, trace id, name, input, output, metadata,
and for generations model identity/parameters/usage; `end(...)` fills
level/status on error paths. -/
structure StatefulObservation where
  obsId : Option String
  traceId : Option String
  kind : ObservationKind
  name : Value
  input : Value
  output : Value
  metadata : Option (List (String × Value))
  model : Option String
  modelParameters : List (String × Value)
  level : Option ObservationLevel
  statusMessage : Option Value
  usage : Option Value
  version : Option String
  ended : Bool

/-- Modelled from the spec: `StatefulClient.end` (in the absent
`langfuse/client.py`) produces the updated, closed counterpart of a
handle — fields passed to the call are written, fields not passed are
kept (spec section 3: `end(output, status, error_message?, usage?)
producing an updated, closed record`). -/
def StatefulObservation.endWith (h : StatefulObservation)
    (output : Option Value) (level : Option ObservationLevel)
    (statusMessage : Option Value) (usage : Option Value)
    (version : Option String) : StatefulObservation :=
  { h with
    output := output.getD h.output
    level := match level with | some l => some l | none => h.level
    statusMessage :=
      match statusMessage with | some m => some m | none => h.statusMessage
    usage := match usage with | some u => some u | none => h.usage
    version := match version with | some v => some v | none => h.version
    ended := true }

/-- Modelled from the spec: `StatefulTraceClient.span` (absent
`langfuse/client.py`) — child creation yields a new span handle linked
to the trace (spec section 3, `child(...)`). The argument order follows
the `content` dictionary built by `on_chain_start`. -/
def StatefulTrace.spanChild (t : StatefulTrace) (id : Option String)
    (name : Value) (metadata : Option (List (String × Value)))
    (input : Value) (version : Option String) : StatefulObservation :=
  { obsId := id, traceId := some t.id, kind := .span, name := name,
    input := input, output := .vnone, metadata := metadata, model := none,
    modelParameters := [], level := none, statusMessage := none,
    usage := none, version := version, ended := false }

/-- Modelled from the spec: `StatefulTraceClient.generation` (absent
`langfuse/client.py`) — child creation yields a new generation handle
linked to the trace, carrying model identity and parameters. -/
def StatefulTrace.generationChild (t : StatefulTrace) (name : Value)
    (input : Value) (metadata : Option (List (String × Value)))
    (model : Option String) (modelParameters : List (String × Value))
    (version : Option String) : StatefulObservation :=
  { obsId := none, traceId := some t.id, kind := .generation,
    name := name, input := input, output := .vnone, metadata := metadata,
    model := model, modelParameters := modelParameters, level := none,
    statusMessage := none, usage := none, version := version,
    ended := false }

/-- Modelled from the spec: `StatefulSpanClient.span` (absent
`langfuse/client.py`) — child span of an observation; an explicitly
passed trace id wins, otherwise the parent's trace id is inherited. -/
def StatefulObservation.spanChild (h : StatefulObservation)
    (id : Option String) (traceId : Option String) (name : Value)
    (metadata : Option (List (String × Value))) (input : Value)
    (version : Option String) : StatefulObservation :=
  { obsId := id,
    traceId := match traceId with | some x => some x | none => h.traceId,
    kind := .span, name := name, input := input, output := .vnone,
    metadata := metadata, model := none, modelParameters := [],
    level := none, statusMessage := none, usage := none,
    version := version, ended := false }

/-- Modelled from the spec: `StatefulSpanClient.generation` (absent
`langfuse/client.py`) — child generation of an observation. -/
def StatefulObservation.generationChild (h : StatefulObservation)
    (name : Value) (input : Value)
    (metadata : Option (List (String × Value))) (model : Option String)
    (modelParameters : List (String × Value)) (version : Option String) :
    StatefulObservation :=
  { obsId := none, traceId := h.traceId, kind := .generation,
    name := name, input := input, output := .vnone, metadata := metadata,
    model := model, modelParameters := modelParameters, level := none,
    statusMessage := none, usage := none, version := version,
    ended := false }

/-- Modelled from the spec: `StatefulTraceClient.update` (absent
`langfuse/client.py`) — writes the given output onto the trace record
(spec section 3's root completion invariant names this as the only
engine-driven path populating a trace's output). -/
def StatefulTrace.update (t : StatefulTrace) (output : Value) :
    StatefulTrace :=
  { t with output := output }

/-- A diagnostic (`sdk-log`) event handed to the task manager by
`CallbackHandler._report_error` (callback.py lines 793-803). The
representation keeps the payloads that the Python code stringifies;
the random event id and timestamp are transport details outside the
model. -/
structure SdkLogEvent where
  log : String
  kwargsPayload : List (String × Value)
  serializedPayload : Value
  exception : Option String

/-- The mutable state of one `CallbackHandler` instance: the fields
assigned in `__init__` (callback.py lines 36-143), plus the event queue
of the task manager (`events`), a counter of traces created through the
`Langfuse` client (`tracesCreated`), and the log of caught-and-logged
failures (`logged`). -/
structure HandlerState where
  trace : Option StatefulTrace
  rootSpan : Option StatefulObservation
  hasLangfuse : Bool
  runs : List (String × StatefulObservation)
  nextSpanId : Option String
  version : Option String
  sessionId : Option String
  userId : Option String
  traceName : Option String
  tracesCreated : Nat
  events : List SdkLogEvent
  logged : List String

/-- The handler state right after stateless (key-based) construction
(callback.py lines 105-135): no trace, no root span, a `Langfuse`
client, an empty registry, and the construction-time configuration. -/
def initStateless (sessionId userId traceName version : Option String) :
    HandlerState :=
  { trace := none, rootSpan := none, hasLangfuse := true, runs := [],
    nextSpanId := none, version := version, sessionId := sessionId,
    userId := userId, traceName := traceName, tracesCreated := 0,
    events := [], logged := [] }

/-- The handler state right after construction with a stateful trace
client (callback.py lines 83-88): the supplied trace, no root span, no
`Langfuse` client, an empty registry; session/user/trace-name keep
their class defaults. -/
def initStatefulTrace (t : StatefulTrace) (version : Option String) :
    HandlerState :=
  { trace := some t, rootSpan := none, hasLangfuse := false, runs := [],
    nextSpanId := none, version := version, sessionId := none,
    userId := none, traceName := none, tracesCreated := 0,
    events := [], logged := [] }

/-- The handler state right after construction with a stateful span
client (callback.py lines 90-102): the span becomes the root span and
is pre-registered under its own id, a trace client is synthesized from
the span's trace id, and there is no `Langfuse` client. -/
def initStatefulSpan (sp : StatefulObservation) (spId : String)
    (traceId : String) (version : Option String) : HandlerState :=
  { trace := some
      { id := traceId, name := .vnone, metadata := none,
        sessionId := none, userId := none, version := none,
        input := .vnone, output := .vnone },
    rootSpan := some sp, hasLangfuse := false, runs := [(spId, sp)],
    nextSpanId := none, version := version, sessionId := none,
    userId := none, traceName := none, tracesCreated := 0,
    events := [], logged := [] }

/-- The Python-execution monad for one notification method: state
threading with exceptions; an exception carries the state at raise
time, so mutations made before the raise persist, as in CPython. -/
def PyM (α : Type) : Type :=
  HandlerState → Except (String × HandlerState) (α × HandlerState)

instance : Monad PyM where
  pure a := fun s => .ok (a, s)
  bind m f := fun s =>
    match m s with
    | .ok (a, s') => f a s'
    | .error e => .error e

/-- Python `raise`. -/
def pyRaise {α : Type} (msg : String) : PyM α := fun s => .error (msg, s)

/-- Evaluate a pure Python expression that may raise. -/
def liftE {α : Type} (e : Except String α) : PyM α := fun s =>
  match e with
  | .ok a => .ok (a, s)
  | .error m => .error (m, s)

/-- Read the handler's state (`self`). -/
def getS : PyM HandlerState := fun s => .ok (s, s)

/-- Mutate the handler's state (an assignment to a `self` field). -/
def modifyS (f : HandlerState → HandlerState) : PyM Unit := fun s =>
  .ok ((), f s)

/-- The `try: ... except Exception as e: self.log.exception(e)` wrapper
that encloses every notification method body (e.g. callback.py lines
243-276): an exception is converted into a log entry and a normal
return, keeping whatever state mutations already happened. -/
def tryExcept (m : PyM Unit) : PyM Unit := fun s =>
  match m s with
  | .ok (_, s') => .ok ((), s')
  | .error (e, s') => .ok ((), { s' with logged := s'.logged ++ [e] })

/-- The state a notification method leaves behind (methods wrapped in
`tryExcept` never end in the error branch, but the projection is total
so that theorems can speak about either branch uniformly). -/
def stateAfter {α : Type} :
    Except (String × HandlerState) (α × HandlerState) → HandlerState
  | .ok (_, s) => s
  | .error (_, s) => s

/-- Embedding of `CallbackHandler._report_error` (callback.py lines
793-803): build a diagnostic `sdk-log` event and hand it to the task
manager's queue; the queue handoff never raises (spec section 6:
`enqueue` must not raise back into the core). -/
def report_error (ev : SdkLogEvent) (s : HandlerState) : HandlerState :=
  { s with events := s.events ++ [ev] }

/-- The signature of `_extract_model_name` from
`langfuse/extract_model.py` (not among the sources): it receives the
serialized descriptor and the keyword arguments and either returns a
model name, returns `None`, or raises. The claims quantify over it. -/
def ModelExtractor : Type :=
  Value → List (String × Value) → Except String (Option String)

/-- True when a model-extractor outcome counts as an extraction
failure (no model name produced): `None` returned or an exception. -/
def extractionFailed (r : Except String (Option String)) : Bool :=
  match r with
  | .ok (some _) => false
  | _ => true

/-- Embedding of `CallbackHandler._parse_model_and_log_errors`
(callback.py lines 688-721): on a name, return it; on `None`, log a
warning and report a diagnostic event, falling out with `None`; on an
exception, log it, warn, report a diagnostic event carrying the
exception text, and return `None`. It never raises to its caller. -/
def parse_model_and_log_errors (em : ModelExtractor) (serialized : Value)
    (kwargs : List (String × Value)) : PyM (Option String) := fun s =>
  match em serialized kwargs with
  | .ok (some m) => .ok (some m, s)
  | .ok none =>
    .ok (none, report_error
      { log := "unable to parse model name", kwargsPayload := kwargs,
        serializedPayload := serialized, exception := none }
      { s with logged := s.logged ++ ["unable to parse the LLM model"] })
  | .error e =>
    .ok (none, report_error
      { log := "unable to parse model name", kwargsPayload := kwargs,
        serializedPayload := serialized, exception := some e }
      { s with logged := s.logged ++ [e, "unable to parse the LLM model"] })

/-- Modelled from the spec: `Langfuse.trace` (in the absent
`langfuse/client.py`) creates a new trace record from the given fields
(spec section 4.1, `ensureTrace`: records session/user identifiers and
the version captured at construction). -/
def mkTrace (id : String) (name : Value)
    (metadata : Option (List (String × Value))) (version : Option String)
    (sessionId userId : Option String) (input : Value) : StatefulTrace :=
  { id := id, name := name, metadata := metadata, sessionId := sessionId,
    userId := userId, version := version, input := input,
    output := .vnone }

/-- The body of `CallbackHandler.__generate_trace_and_parent`
(callback.py lines 284-336), before its own `try/except`:
resolve the class name, reset trace and registry when a root start
arrives in stateless mode with a trace already active, then create a
trace (and, when the parent is registered, a span) when no trace exists
and a `Langfuse` client does. `gkwargs` is the keyword dictionary the
caller forwarded (it contains a `version` entry from both call sites). -/
def generate_trace_and_parent_body (serialized : Value) (inputsV : Value)
    (runId : String) (parentRunId : Option String)
    (tags : Option (List String))
    (metadata : Option (List (String × Value)))
    (gkwargs : List (String × Value)) : PyM Unit := do
  let className ← liftE (get_langchain_run_name serialized gkwargs)
  let s ← getS
  if s.trace.isSome && parentRunId.isNone && s.hasLangfuse then
    modifyS fun st => { st with trace := none, runs := [] }
  let s1 ← getS
  if s1.trace.isNone && s1.hasLangfuse then do
    let t := mkTrace runId
      (match s1.traceName with | some n => .vstr n | none => className)
      (join_tags_and_metadata tags metadata) s1.version s1.sessionId
      s1.userId inputsV
    modifyS fun st =>
      { st with trace := some t, tracesCreated := st.tracesCreated + 1 }
    match parentRunId with
    | some p => do
      let s2 ← getS
      if (lookupKey s2.runs p).isSome then
        modifyS fun st =>
          let child := t.spanChild st.nextSpanId className
            (join_tags_and_metadata tags metadata) inputsV st.version
          { st with runs := setKey st.runs runId child }
      else pure ()
    | none => pure ()
  else pure ()

/-- Embedding of `CallbackHandler.__generate_trace_and_parent`
including its own `try/except` (callback.py lines 295-336): the helper
never raises into its caller. -/
def generate_trace_and_parent (serialized : Value) (inputsV : Value)
    (runId : String) (parentRunId : Option String)
    (tags : Option (List String))
    (metadata : Option (List (String × Value)))
    (gkwargs : List (String × Value)) : PyM Unit :=
  tryExcept (generate_trace_and_parent_body serialized inputsV runId
    parentRunId tags metadata gkwargs)

/-- The body of `CallbackHandler.on_chain_start` (callback.py lines
243-276): the debug log line's name expression is evaluated first (it
can raise), then `__generate_trace_and_parent` is called with
`version=self.version` merged into the forwarded keyword arguments
(a `version` key already present among them makes the call itself
raise `TypeError`), then the span content is built (reading
`self.trace.id`, which raises when no trace is available) and the span
is stored under `run_id` as a child of the trace, the root span, or
the registered parent (a missing parent raises `KeyError`). -/
def on_chain_start_body (serialized : Value)
    (inputs : List (String × Value)) (runId : String)
    (parentRunId : Option String) (tags : Option (List String))
    (metadata : Option (List (String × Value)))
    (kwargs : List (String × Value)) : PyM Unit := do
  let _dbg ← liftE (chainStartDebugName serialized)
  let s0 ← getS
  let gkw ←
    if hasKey kwargs "version" then pyRaise "TypeError"
    else pure (("version", optValue s0.version) :: kwargs)
  generate_trace_and_parent serialized (.vdict inputs) runId parentRunId
    tags metadata gkw
  let s ← getS
  let traceObj ←
    match s.trace with
    | some t => pure t
    | none => pyRaise "AttributeError"
  let name ← liftE (get_langchain_run_name serialized kwargs)
  let meta := join_tags_and_metadata tags metadata
  match parentRunId with
  | none =>
    match s.rootSpan with
    | none =>
      let child := traceObj.spanChild s.nextSpanId name meta
        (.vdict inputs) s.version
      modifyS fun st => { st with runs := setKey st.runs runId child }
    | some r =>
      let child := r.spanChild s.nextSpanId (some traceObj.id) name meta
        (.vdict inputs) s.version
      modifyS fun st => { st with runs := setKey st.runs runId child }
  | some p =>
    match lookupKey s.runs p with
    | some ph =>
      let child := ph.spanChild s.nextSpanId (some traceObj.id) name meta
        (.vdict inputs) s.version
      modifyS fun st => { st with runs := setKey st.runs runId child }
    | none => pyRaise "KeyError"

/-- Embedding of `CallbackHandler.on_chain_start` with its enclosing
`try/except` (callback.py lines 232-276). -/
def on_chain_start (serialized : Value) (inputs : List (String × Value))
    (runId : String) (parentRunId : Option String)
    (tags : Option (List String))
    (metadata : Option (List (String × Value)))
    (kwargs : List (String × Value)) : PyM Unit :=
  tryExcept (on_chain_start_body serialized inputs runId parentRunId tags
    metadata kwargs)

/-- A Python exception object received by an error notification; `msg`
is what `str(error)` yields. -/
structure PyErr where
  msg : String

/-- Embedding of `CallbackHandler._update_trace` (callback.py lines
805-815): only when the parent run id is absent, a trace is available,
and the trace's id equals the run id (as a string) is the trace
replaced by its updated counterpart carrying the given output. -/
def update_trace (runId : String) (parentRunId : Option String)
    (output : Value) : PyM Unit :=
  modifyS fun s =>
    match s.trace with
    | some t =>
      if parentRunId.isNone && t.id == runId then
        { s with trace := some (t.update output) }
      else s
    | none => s

/-- The body of `CallbackHandler.on_chain_end` (callback.py lines
394-407): unknown run ids raise (and are then swallowed by the
wrapper); otherwise the handle is replaced by its closed counterpart
and the trace is updated through `_update_trace`. -/
def on_chain_end_body (outputs : List (String × Value)) (runId : String)
    (parentRunId : Option String) : PyM Unit := do
  let s ← getS
  match lookupKey s.runs runId with
  | none => pyRaise "run not found"
  | some h => do
    modifyS fun st =>
      let h' := h.endWith (some (.vdict outputs)) none none none st.version
      { st with runs := setKey st.runs runId h' }
    update_trace runId parentRunId (.vdict outputs)

/-- Embedding of `CallbackHandler.on_chain_end` (callback.py lines
386-408). -/
def on_chain_end (outputs : List (String × Value)) (runId : String)
    (parentRunId : Option String) : PyM Unit :=
  tryExcept (on_chain_end_body outputs runId parentRunId)

/-- The body of `CallbackHandler.on_chain_error` (callback.py lines
419-432): no membership check — the registry lookup itself raises
`KeyError` on an unknown run id; otherwise the handle is closed with
error level and the stringified error, and the trace is updated with
the raw error object. -/
def on_chain_error_body (error : PyErr) (runId : String)
    (parentRunId : Option String) : PyM Unit := do
  let s ← getS
  match lookupKey s.runs runId with
  | none => pyRaise "KeyError"
  | some h => do
    modifyS fun st =>
      let h' := h.endWith none (some .ERROR) (some (.vstr error.msg)) none
        st.version
      { st with runs := setKey st.runs runId h' }
    update_trace runId parentRunId (.vexc error.msg)

/-- Embedding of `CallbackHandler.on_chain_error` (callback.py lines
410-432). -/
def on_chain_error (error : PyErr) (runId : String)
    (parentRunId : Option String) : PyM Unit :=
  tryExcept (on_chain_error_body error runId parentRunId)

/-- The body of `CallbackHandler.on_tool_end` (callback.py lines
586-600). -/
def on_tool_end_body (output : String) (runId : String)
    (parentRunId : Option String) : PyM Unit := do
  let s ← getS
  match lookupKey s.runs runId with
  | none => pyRaise "run not found"
  | some h => do
    modifyS fun st =>
      let h' := h.endWith (some (.vstr output)) none none none st.version
      { st with runs := setKey st.runs runId h' }
    update_trace runId parentRunId (.vstr output)

/-- Embedding of `CallbackHandler.on_tool_end` (callback.py lines
578-600). -/
def on_tool_end (output : String) (runId : String)
    (parentRunId : Option String) : PyM Unit :=
  tryExcept (on_tool_end_body output runId parentRunId)

/-- The body of `CallbackHandler.on_tool_error` (callback.py lines
610-624): note that, unlike the chain/llm/retriever error paths, the
raw error object — not `str(error)` — is passed as the status
message. -/
def on_tool_error_body (error : PyErr) (runId : String)
    (parentRunId : Option String) : PyM Unit := do
  let s ← getS
  match lookupKey s.runs runId with
  | none => pyRaise "run not found"
  | some h => do
    modifyS fun st =>
      let h' := h.endWith none (some .ERROR) (some (.vexc error.msg)) none
        st.version
      { st with runs := setKey st.runs runId h' }
    update_trace runId parentRunId (.vexc error.msg)

/-- Embedding of `CallbackHandler.on_tool_error` (callback.py lines
602-624). -/
def on_tool_error (error : PyErr) (runId : String)
    (parentRunId : Option String) : PyM Unit :=
  tryExcept (on_tool_error_body error runId parentRunId)

/-- The body of `CallbackHandler.on_retriever_end` (callback.py lines
561-576). -/
def on_retriever_end_body (documents : List Value) (runId : String)
    (parentRunId : Option String) : PyM Unit := do
  let s ← getS
  match lookupKey s.runs runId with
  | none => pyRaise "run not found"
  | some h => do
    modifyS fun st =>
      let h' := h.endWith (some (.vlist documents)) none none none
        st.version
      { st with runs := setKey st.runs runId h' }
    update_trace runId parentRunId (.vlist documents)

/-- Embedding of `CallbackHandler.on_retriever_end` (callback.py lines
553-576). -/
def on_retriever_end (documents : List Value) (runId : String)
    (parentRunId : Option String) : PyM Unit :=
  tryExcept (on_retriever_end_body documents runId parentRunId)

/-- The body of `CallbackHandler.on_retriever_error` (callback.py lines
216-230): closes the handle with error level and the stringified
error; it does not call `_update_trace`. -/
def on_retriever_error_body (error : PyErr) (runId : String)
    (parentRunId : Option String) : PyM Unit := do
  let s ← getS
  match lookupKey s.runs runId with
  | none => pyRaise "run not found"
  | some h =>
    modifyS fun st =>
      let h' := h.endWith none (some .ERROR) (some (.vstr error.msg)) none
        st.version
      { st with runs := setKey st.runs runId h' }

/-- Embedding of `CallbackHandler.on_retriever_error` (callback.py
lines 207-230). -/
def on_retriever_error (error : PyErr) (runId : String)
    (parentRunId : Option String) : PyM Unit :=
  tryExcept (on_retriever_error_body error runId parentRunId)

/-- The body of `CallbackHandler.on_llm_error` (callback.py lines
764-776): no membership check — the registry lookup raises on an
unknown run id; otherwise the handle is closed with error level and
the stringified error, and the trace is updated with the raw error. -/
def on_llm_error_body (error : PyErr) (runId : String)
    (parentRunId : Option String) : PyM Unit := do
  let s ← getS
  match lookupKey s.runs runId with
  | none => pyRaise "KeyError"
  | some h => do
    modifyS fun st =>
      let h' := h.endWith none (some .ERROR) (some (.vstr error.msg)) none
        st.version
      { st with runs := setKey st.runs runId h' }
    update_trace runId parentRunId (.vexc error.msg)

/-- Embedding of `CallbackHandler.on_llm_error` (callback.py lines
756-776). -/
def on_llm_error (error : PyErr) (runId : String)
    (parentRunId : Option String) : PyM Unit :=
  tryExcept (on_llm_error_body error runId parentRunId)

/-- The body of `CallbackHandler.on_agent_action` (callback.py lines
347-360): closes the handle with the action as output; it does not
call `_update_trace`. -/
def on_agent_action_body (action : Value) (runId : String)
    (parentRunId : Option String) : PyM Unit := do
  let s ← getS
  match lookupKey s.runs runId with
  | none => pyRaise "run not found"
  | some h =>
    modifyS fun st =>
      let h' := h.endWith (some action) none none none st.version
      { st with runs := setKey st.runs runId h' }

/-- Embedding of `CallbackHandler.on_agent_action` (callback.py lines
338-360). -/
def on_agent_action (action : Value) (runId : String)
    (parentRunId : Option String) : PyM Unit :=
  tryExcept (on_agent_action_body action runId parentRunId)

/-- The body of `CallbackHandler.on_agent_finish` (callback.py lines
370-384): closes the handle with the finish payload as output and
updates the trace through `_update_trace`. -/
def on_agent_finish_body (finish : Value) (runId : String)
    (parentRunId : Option String) : PyM Unit := do
  let s ← getS
  match lookupKey s.runs runId with
  | none => pyRaise "run not found"
  | some h => do
    modifyS fun st =>
      let h' := h.endWith (some finish) none none none st.version
      { st with runs := setKey st.runs runId h' }
    update_trace runId parentRunId finish

/-- Embedding of `CallbackHandler.on_agent_finish` (callback.py lines
362-384). -/
def on_agent_finish (finish : Value) (runId : String)
    (parentRunId : Option String) : PyM Unit :=
  tryExcept (on_agent_finish_body finish runId parentRunId)

/-- The body of `CallbackHandler.__on_llm_action` (callback.py lines
636-686), before its own `try/except`: bootstrap the trace (forwarding
`version` and the whole keyword dictionary under the key `kwargs`),
parse the model name (never raising), build the generation content
(name resolution first, then `kwargs["invocation_params"]`, which
raises `KeyError` when absent), and store the generation under
`run_id` — under the registered parent, else under the root span when
the parent id is absent, else directly under the trace (reading
`self.trace`, which raises when no trace is available). -/
def on_llm_action_body (em : ModelExtractor) (serialized : Value)
    (runId : String) (inputsV : Value) (parentRunId : Option String)
    (tags : Option (List String))
    (metadata : Option (List (String × Value)))
    (kwargs : List (String × Value)) : PyM Unit := do
  let s0 ← getS
  generate_trace_and_parent serialized inputsV runId parentRunId tags
    metadata [("version", optValue s0.version), ("kwargs", .vdict kwargs)]
  let modelName ← parse_model_and_log_errors em serialized kwargs
  let name ← liftE (get_langchain_run_name serialized kwargs)
  let invp ← liftE
    (match lookupKey kwargs "invocation_params" with
      | some v => .ok v
      | none => .error "KeyError")
  let mps ← liftE (modelParamsRaw invp)
  let meta := join_tags_and_metadata tags metadata
  let s ← getS
  match parentRunId, (do let p ← parentRunId; lookupKey s.runs p) with
  | some _, some ph =>
    let child := ph.generationChild name inputsV meta modelName mps
      s.version
    modifyS fun st => { st with runs := setKey st.runs runId child }
  | _, _ =>
    match parentRunId, s.rootSpan with
    | none, some r =>
      let child := r.generationChild name inputsV meta modelName mps
        s.version
      modifyS fun st => { st with runs := setKey st.runs runId child }
    | _, _ =>
      match s.trace with
      | some t =>
        let child := t.generationChild name inputsV meta modelName mps
          s.version
        modifyS fun st => { st with runs := setKey st.runs runId child }
      | none => pyRaise "AttributeError"

/-- Embedding of `CallbackHandler.__on_llm_action` with its enclosing
`try/except` (callback.py lines 626-686). -/
def on_llm_action (em : ModelExtractor) (serialized : Value)
    (runId : String) (inputsV : Value) (parentRunId : Option String)
    (tags : Option (List String))
    (metadata : Option (List (String × Value)))
    (kwargs : List (String × Value)) : PyM Unit :=
  tryExcept (on_llm_action_body em serialized runId inputsV parentRunId
    tags metadata kwargs)

/-- Embedding of `CallbackHandler.on_llm_start` (callback.py lines
461-486): forwards the prompts (a list of strings) to
`__on_llm_action` inside its own `try/except`. -/
def on_llm_start (em : ModelExtractor) (serialized : Value)
    (prompts : List String) (runId : String)
    (parentRunId : Option String) (tags : Option (List String))
    (metadata : Option (List (String × Value)))
    (kwargs : List (String × Value)) : PyM Unit :=
  tryExcept (on_llm_action em serialized runId
    (.vlist (prompts.map .vstr)) parentRunId tags metadata kwargs)

/-- Embedding of `CallbackHandler.on_chat_model_start` (callback.py
lines 434-459): forwards the message batches to `__on_llm_action`
inside its own `try/except`. -/
def on_chat_model_start (em : ModelExtractor) (serialized : Value)
    (messages : Value) (runId : String) (parentRunId : Option String)
    (tags : Option (List String))
    (metadata : Option (List (String × Value)))
    (kwargs : List (String × Value)) : PyM Unit :=
  tryExcept (on_llm_action em serialized runId messages parentRunId tags
    metadata kwargs)

/-- The body of `CallbackHandler.on_tool_start` (callback.py lines
499-519): an absent or unregistered parent raises before anything is
written; the merged metadata is `None` when both tags and metadata are
absent, and the `meta.update(...)` call then raises `AttributeError`;
otherwise the non-null keyword arguments are merged in, the span is
created under the registered parent, and `next_span_id` is cleared. -/
def on_tool_start_body (serialized : Value) (inputStr : String)
    (runId : String) (parentRunId : Option String)
    (tags : Option (List String))
    (metadata : Option (List (String × Value)))
    (kwargs : List (String × Value)) : PyM Unit := do
  let s ← getS
  match (do let p ← parentRunId; lookupKey s.runs p) with
  | none => pyRaise "parent run not found"
  | some ph => do
    let meta ←
      match join_tags_and_metadata tags metadata with
      | none => pyRaise "AttributeError"
      | some m =>
        pure (updateDict m (kwargs.filter (fun kv => !kv.2.isNone)))
    let name ← liftE (get_langchain_run_name serialized kwargs)
    let child := ph.spanChild s.nextSpanId none name (some meta)
      (.vstr inputStr) s.version
    modifyS fun st => { st with runs := setKey st.runs runId child }
    modifyS fun st => { st with nextSpanId := none }

/-- Embedding of `CallbackHandler.on_tool_start` (callback.py lines
488-521). -/
def on_tool_start (serialized : Value) (inputStr : String)
    (runId : String) (parentRunId : Option String)
    (tags : Option (List String))
    (metadata : Option (List (String × Value)))
    (kwargs : List (String × Value)) : PyM Unit :=
  tryExcept (on_tool_start_body serialized inputStr runId parentRunId
    tags metadata kwargs)

/-- The body of `CallbackHandler.on_retriever_start` (callback.py lines
534-551): an absent or unregistered parent raises before anything is
written; otherwise the span is created under the registered parent and
`next_span_id` is cleared. -/
def on_retriever_start_body (serialized : Value) (query : String)
    (runId : String) (parentRunId : Option String)
    (tags : Option (List String))
    (metadata : Option (List (String × Value)))
    (kwargs : List (String × Value)) : PyM Unit := do
  let s ← getS
  match (do let p ← parentRunId; lookupKey s.runs p) with
  | none => pyRaise "parent run not found"
  | some ph => do
    let name ← liftE (get_langchain_run_name serialized kwargs)
    let child := ph.spanChild s.nextSpanId none name
      (join_tags_and_metadata tags metadata) (.vstr query) s.version
    modifyS fun st => { st with runs := setKey st.runs runId child }
    modifyS fun st => { st with nextSpanId := none }

/-- Embedding of `CallbackHandler.on_retriever_start` (callback.py
lines 523-551). -/
def on_retriever_start (serialized : Value) (query : String)
    (runId : String) (parentRunId : Option String)
    (tags : Option (List String))
    (metadata : Option (List (String × Value)))
    (kwargs : List (String × Value)) : PyM Unit :=
  tryExcept (on_retriever_start_body serialized query runId parentRunId
    tags metadata kwargs)

/-- A `langchain` `LLMResult`: generation batches plus the optional
provider payload `llm_output`. -/
structure LLMResult where
  generations : List (List Candidate)
  llmOutput : Option Value

/-- The body of `CallbackHandler.on_llm_end` (callback.py lines
731-754): unknown run ids raise; otherwise the last candidate of the
last batch is taken (`response.generations[-1][-1]`, raising on empty
lists), the usage is `None` when `llm_output` is absent and otherwise
`llm_output["token_usage"]` (raising when missing), the output is
extracted by `_extract_response`, the handle is closed with that
output and usage, and the trace is updated. -/
def on_llm_end_body (response : LLMResult) (runId : String)
    (parentRunId : Option String) : PyM Unit := do
  let s ← getS
  match lookupKey s.runs runId with
  | none => pyRaise "Run not found"
  | some h => do
    let lastBatch ← liftE (listLast response.generations)
    let lastResponse ← liftE (listLast lastBatch)
    let llmUsage ←
      match response.llmOutput with
      | none => pure Value.vnone
      | some lo => liftE (pySubscript lo "token_usage")
    let extracted ← liftE (extract_response lastResponse)
    modifyS fun st =>
      let h' := h.endWith (some extracted) none none (some llmUsage)
        st.version
      { st with runs := setKey st.runs runId h' }
    update_trace runId parentRunId extracted

/-- Embedding of `CallbackHandler.on_llm_end` (callback.py lines
723-754). -/
def on_llm_end (response : LLMResult) (runId : String)
    (parentRunId : Option String) : PyM Unit :=
  tryExcept (on_llm_end_body response runId parentRunId)

/-- One segment of the model-parameter extraction: the contribution of
a single key, as the spec describes it (kept with its value when
present and non-null, omitted otherwise). -/
def paramEntry (k : String) (o : Option Value) : List (String × Value) :=
  match o with
  | some v => if v.isNone then [] else [(k, v)]
  | none => []

/-- A concrete trace fixture used by witnesses and counterexamples. -/
def egTrace : StatefulTrace :=
  { id := "t", name := .vstr "root", metadata := none, sessionId := none,
    userId := none, version := none, input := .vnone, output := .vnone }

/-- A concrete span fixture used by witnesses and counterexamples. -/
def egSpan : StatefulObservation :=
  { obsId := none, traceId := some "t", kind := .span,
    name := .vstr "parent", input := .vnone, output := .vnone,
    metadata := none, model := none, modelParameters := [], level := none,
    statusMessage := none, usage := none, version := none,
    ended := false }

/-- A concrete stateless handler state with an active trace and one
registered run (under id `"p"`), used by witnesses and
counterexamples. -/
def egStateActive : HandlerState :=
  { trace := some egTrace, rootSpan := none, hasLangfuse := true,
    runs := [("p", egSpan)], nextSpanId := none, version := none,
    sessionId := none, userId := none, traceName := none,
    tracesCreated := 1, events := [], logged := [] }

/-- A concrete chat candidate with blank text and a tool-call payload,
used by witnesses. -/
def egCandidate : Candidate :=
  { text := some "  ",
    messageAdditionalKwargs := some [("tool", .vstr "x")] }

/-- A concrete model response whose only candidate is `egCandidate`,
used by witnesses. -/
def egResponse : LLMResult :=
  { generations := [[egCandidate]], llmOutput := none }

/-- One end notification of any of the five trace-updating kinds,
used to state frame properties uniformly over the end methods. -/
inductive EndCall where
  | chain : List (String × Value) → EndCall
  | tool : String → EndCall
  | retriever : List Value → EndCall
  | llm : LLMResult → EndCall
  | agent : Value → EndCall

/-- Dispatch an `EndCall` to the corresponding embedded method. -/
def runEnd : EndCall → String → Option String → PyM Unit
  | .chain outputs => on_chain_end outputs
  | .tool output => on_tool_end output
  | .retriever documents => on_retriever_end documents
  | .llm response => on_llm_end response
  | .agent finish => on_agent_finish finish

/-- The exception text of a model-extraction outcome, when it raised. -/
def exceptionOf (r : Except String (Option String)) : Option String :=
  match r with
  | .error e => some e
  | .ok _ => none

theorem PyM.bind_def {α β : Type} (m : PyM α) (f : α → PyM β) :
    (m >>= f) = fun s =>
      match m s with
      | .ok (a, s') => f a s'
      | .error e => .error e := rfl

theorem PyM.pure_def {α : Type} (a : α) :
    (pure a : PyM α) = fun s => .ok (a, s) := rfl

theorem tryExcept_isOk (m : PyM Unit) (s : HandlerState) :
    (tryExcept m s).isOk = true := by
  unfold tryExcept
  cases m s with
  | ok p => rfl
  | error p => rfl

/-- C1. Every notification method of the handler (the fifteen listed in
the claim) returns normally on every input and every handler state —
the enclosing `try/except` converts any internal failure into a log
entry — and a model-extraction failure additionally appends exactly one
diagnostic `sdk-log` event to the event queue. -/
theorem C1_notifications_never_raise :
    (∀ serialized inputs runId parentRunId tags metadata kwargs s,
      (on_chain_start serialized inputs runId parentRunId tags metadata
        kwargs s).isOk = true) ∧
    (∀ outputs runId parentRunId s,
      (on_chain_end outputs runId parentRunId s).isOk = true) ∧
    (∀ error runId parentRunId s,
      (on_chain_error error runId parentRunId s).isOk = true) ∧
    (∀ em serialized prompts runId parentRunId tags metadata kwargs s,
      (on_llm_start em serialized prompts runId parentRunId tags metadata
        kwargs s).isOk = true) ∧
    (∀ em serialized messages runId parentRunId tags metadata kwargs s,
      (on_chat_model_start em serialized messages runId parentRunId tags
        metadata kwargs s).isOk = true) ∧
    (∀ response runId parentRunId s,
      (on_llm_end response runId parentRunId s).isOk = true) ∧
    (∀ error runId parentRunId s,
      (on_llm_error error runId parentRunId s).isOk = true) ∧
    (∀ serialized inputStr runId parentRunId tags metadata kwargs s,
      (on_tool_start serialized inputStr runId parentRunId tags metadata
        kwargs s).isOk = true) ∧
    (∀ output runId parentRunId s,
      (on_tool_end output runId parentRunId s).isOk = true) ∧
    (∀ error runId parentRunId s,
      (on_tool_error error runId parentRunId s).isOk = true) ∧
    (∀ serialized query runId parentRunId tags metadata kwargs s,
      (on_retriever_start serialized query runId parentRunId tags
        metadata kwargs s).isOk = true) ∧
    (∀ documents runId parentRunId s,
      (on_retriever_end documents runId parentRunId s).isOk = true) ∧
    (∀ error runId parentRunId s,
      (on_retriever_error error runId parentRunId s).isOk = true) ∧
    (∀ action runId parentRunId s,
      (on_agent_action action runId parentRunId s).isOk = true) ∧
    (∀ finish runId parentRunId s,
      (on_agent_finish finish runId parentRunId s).isOk = true) ∧
    (∀ em serialized kwargs s,
      (stateAfter (parse_model_and_log_errors em serialized kwargs
        s)).events =
      if extractionFailed (em serialized kwargs) then
        s.events ++
          [{ log := "unable to parse model name", kwargsPayload := kwargs,
             serializedPayload := serialized,
             exception := exceptionOf (em serialized kwargs) }]
      else s.events) := by
  refine ⟨fun _ _ _ _ _ _ _ _ => tryExcept_isOk _ _,
    fun _ _ _ _ => tryExcept_isOk _ _,
    fun _ _ _ _ => tryExcept_isOk _ _,
    fun _ _ _ _ _ _ _ _ _ => tryExcept_isOk _ _,
    fun _ _ _ _ _ _ _ _ _ => tryExcept_isOk _ _,
    fun _ _ _ _ => tryExcept_isOk _ _,
    fun _ _ _ _ => tryExcept_isOk _ _,
    fun _ _ _ _ _ _ _ _ => tryExcept_isOk _ _,
    fun _ _ _ _ => tryExcept_isOk _ _,
    fun _ _ _ _ => tryExcept_isOk _ _,
    fun _ _ _ _ _ _ _ _ => tryExcept_isOk _ _,
    fun _ _ _ _ => tryExcept_isOk _ _,
    fun _ _ _ _ => tryExcept_isOk _ _,
    fun _ _ _ _ => tryExcept_isOk _ _,
    fun _ _ _ _ => tryExcept_isOk _ _,
    fun em serialized kwargs s => ?_⟩
  unfold parse_model_and_log_errors extractionFailed exceptionOf
  cases h : em serialized kwargs with
  | ok o =>
    cases o with
    | some m => simp [stateAfter]
    | none => simp [stateAfter, report_error]
  | error e => simp [stateAfter, report_error]

/-- C5. Every end or error notification whose run id was never
registered is a no-op: the registry and the active trace reference are
unchanged afterward (and, by C1, no exception reaches the caller — the
failure only appends to the log). -/
theorem C5_unknown_run_end_error_noop :
    (∀ outputs runId parentRunId s,
      lookupKey s.runs runId = none →
      (stateAfter (on_chain_end outputs runId parentRunId s)).runs =
        s.runs ∧
      (stateAfter (on_chain_end outputs runId parentRunId s)).trace =
        s.trace) ∧
    (∀ error runId parentRunId s,
      lookupKey s.runs runId = none →
      (stateAfter (on_chain_error error runId parentRunId s)).runs =
        s.runs ∧
      (stateAfter (on_chain_error error runId parentRunId s)).trace =
        s.trace) ∧
    (∀ output runId parentRunId s,
      lookupKey s.runs runId = none →
      (stateAfter (on_tool_end output runId parentRunId s)).runs =
        s.runs ∧
      (stateAfter (on_tool_end output runId parentRunId s)).trace =
        s.trace) ∧
    (∀ error runId parentRunId s,
      lookupKey s.runs runId = none →
      (stateAfter (on_tool_error error runId parentRunId s)).runs =
        s.runs ∧
      (stateAfter (on_tool_error error runId parentRunId s)).trace =
        s.trace) ∧
    (∀ documents runId parentRunId s,
      lookupKey s.runs runId = none →
      (stateAfter (on_retriever_end documents runId parentRunId s)).runs =
        s.runs ∧
      (stateAfter (on_retriever_end documents runId parentRunId
        s)).trace = s.trace) ∧
    (∀ error runId parentRunId s,
      lookupKey s.runs runId = none →
      (stateAfter (on_retriever_error error runId parentRunId s)).runs =
        s.runs ∧
      (stateAfter (on_retriever_error error runId parentRunId
        s)).trace = s.trace) ∧
    (∀ response runId parentRunId s,
      lookupKey s.runs runId = none →
      (stateAfter (on_llm_end response runId parentRunId s)).runs =
        s.runs ∧
      (stateAfter (on_llm_end response runId parentRunId s)).trace =
        s.trace) ∧
    (∀ error runId parentRunId s,
      lookupKey s.runs runId = none →
      (stateAfter (on_llm_error error runId parentRunId s)).runs =
        s.runs ∧
      (stateAfter (on_llm_error error runId parentRunId s)).trace =
        s.trace) := by
  refine ⟨fun outputs runId parentRunId s h => ?_,
    fun error runId parentRunId s h => ?_,
    fun output runId parentRunId s h => ?_,
    fun error runId parentRunId s h => ?_,
    fun documents runId parentRunId s h => ?_,
    fun error runId parentRunId s h => ?_,
    fun response runId parentRunId s h => ?_,
    fun error runId parentRunId s h => ?_⟩ <;>
  simp only [on_chain_end, on_chain_end_body, on_chain_error,
    on_chain_error_body, on_tool_end, on_tool_end_body, on_tool_error,
    on_tool_error_body, on_retriever_end, on_retriever_end_body,
    on_retriever_error, on_retriever_error_body, on_llm_end,
    on_llm_end_body, on_llm_error, on_llm_error_body, tryExcept,
    PyM.bind_def, getS, pyRaise, h, stateAfter] <;>
  exact ⟨trivial, trivial⟩

/-- Witness for C5 at a concrete input: ending an unknown run id on a
freshly constructed stateless handler changes neither registry nor
trace. -/
theorem C5_witness :
    (stateAfter (on_chain_end [("out", .vstr "x")] "r" none
      (initStateless none none none none))).runs =
      (initStateless none none none none).runs ∧
    (stateAfter (on_chain_end [("out", .vstr "x")] "r" none
      (initStateless none none none none))).trace =
      (initStateless none none none none).trace :=
  C5_unknown_run_end_error_noop.1 [("out", .vstr "x")] "r" none
    (initStateless none none none none) rfl

/-- C6. The claim's name-resolution priority is broken by the code for
the `name` field: `serialized.get("name", serialized.get("id",
["<unknown>"]))[-1]` applies `[-1]` to the outer `.get`, so a
serialized descriptor `{"name": "foo"}` with no override resolves to
`"o"` — the last character of the name — instead of `"foo"`. The
override and the `id`/placeholder fallbacks behave as claimed. -/
theorem C6_run_name_last_character_bug :
    get_langchain_run_name (.vdict [("name", .vstr "foo")]) [] =
      .ok (.vstr "o") ∧
    ("o" : String) ≠ "foo" ∧
    get_langchain_run_name
      (.vdict [("name", .vstr "foo")]) [("name", .vstr "override")] =
      .ok (.vstr "override") ∧
    get_langchain_run_name
      (.vdict [("id", .vlist [.vstr "langchain", .vstr "LLMChain"])]) [] =
      .ok (.vstr "LLMChain") ∧
    get_langchain_run_name (.vdict []) [] = .ok (.vstr "<unknown>") :=
  ⟨rfl, by decide, rfl, rfl, rfl⟩

theorem lookupKey_cons {β : Type} (x : String × β)
    (xs : List (String × β)) (k : String) :
    lookupKey (x :: xs) k =
      if x.1 == k then some x.2 else lookupKey xs k := by
  unfold lookupKey
  rw [List.find?_cons]
  cases hx : (x.1 == k) <;> simp [hx]

theorem lookupKey_map_replace {β : Type} (es : List (String × β))
    (k k' : String) (v : β) :
    lookupKey (es.map (fun kv => if kv.1 == k then (k, v) else kv)) k' =
      if k' = k then (if hasKey es k then some v else none)
      else lookupKey es k' := by
  induction es with
  | nil => by_cases h : k' = k <;> simp [lookupKey, hasKey, h]
  | cons x xs ih =>
    simp only [List.map_cons, hasKey, List.any_cons, lookupKey_cons] at ih ⊢
    by_cases hx : x.1 = k <;> by_cases hk : k' = k <;>
      by_cases hxk' : x.1 = k' <;>
      simp [hx, hk, hxk', ih, hasKey] at ih ⊢ <;>
      simp_all
    simp only [show (x.1 == k) = false from by
      simpa [beq_eq_false_iff_ne] using hx, Bool.false_or]

theorem lookupKey_setKey {β : Type} (es : List (String × β))
    (k k' : String) (v : β) :
    lookupKey (setKey es k v) k' =
      if k' = k then some v else lookupKey es k' := by
  unfold setKey
  by_cases hany : es.any (fun kv => kv.1 == k) = true
  · rw [if_pos hany, lookupKey_map_replace]
    have hh : hasKey es k = true := hany
    simp [hh]
  · rw [if_neg hany]
    unfold lookupKey
    rw [List.find?_append]
    by_cases hk : k' = k
    · subst hk
      have hnone : es.find? (fun kv => kv.1 == k') = none := by
        rw [List.find?_eq_none]
        intro kv hkv
        have hfalse := List.any_eq_false.mp
          (Bool.eq_false_iff.mpr hany) kv hkv
        simpa using hfalse
      simp [hnone, List.find?]
    · have hne : (k == k') = false := by
        simp only [beq_eq_false_iff_ne]
        exact fun h => hk h.symm
      simp [List.find?, hne, hk]

theorem lookupKey_mem_keys {β : Type} {es : List (String × β)}
    {k : String} {v : β} (h : lookupKey es k = some v) :
    k ∈ es.map Prod.fst := by
  unfold lookupKey at h
  cases hf : es.find? (fun kv => kv.1 == k) with
  | none => rw [hf] at h; exact absurd h (by simp)
  | some kv =>
    have hm := List.mem_of_find?_eq_some hf
    have hp := List.find?_some hf
    have hk : kv.1 = k := by simpa using hp
    exact hk ▸ List.mem_map_of_mem Prod.fst hm

theorem lookupKey_updateDict {β : Type} (es other : List (String × β))
    (k : String) (hnd : (other.map Prod.fst).Nodup) :
    lookupKey (updateDict es other) k =
      match lookupKey other k with
      | some v => some v
      | none => lookupKey es k := by
  induction other generalizing es with
  | nil => simp [updateDict, lookupKey]
  | cons x xs ih =>
    have hnd' : (xs.map Prod.fst).Nodup :=
      (List.nodup_cons.mp (by simpa using hnd)).2
    have hnotmem : x.1 ∉ xs.map Prod.fst :=
      (List.nodup_cons.mp (by simpa using hnd)).1
    have hstep : updateDict es (x :: xs) =
        updateDict (setKey es x.1 x.2) xs := rfl
    rw [hstep, ih _ hnd', lookupKey_cons]
    cases hx : lookupKey xs k with
    | some v =>
      have hkmem : k ∈ xs.map Prod.fst := lookupKey_mem_keys hx
      have hne : (x.1 == k) = false := by
        simp only [beq_eq_false_iff_ne]
        intro hh
        exact hnotmem (hh ▸ hkmem)
      simp [hne]
    | none =>
      by_cases hxk : x.1 = k
      · have hb : (x.1 == k) = true := by simpa using hxk
        simp [hb, lookupKey_setKey, hxk.symm]
      · have hb : (x.1 == k) = false := by
          simpa [beq_eq_false_iff_ne] using hxk
        have hkx : ¬(k = x.1) := fun h => hxk h.symm
        simp [hb, lookupKey_setKey, hkx]

/-- C7. `__join_tags_and_metadata` returns `None` when both inputs are
absent; with non-empty tags it returns `{"tags": tags}` overlaid with
every entry of the metadata (last write wins, so a metadata entry for
the literal key `"tags"` — and only such an entry — overrides the tags
value, as the lookup characterization states); with absent or empty
tags it returns the metadata unchanged. The claim's three concrete
examples are included. -/
theorem C7_join_tags_and_metadata :
    join_tags_and_metadata none none = none ∧
    (∀ (ts : List String) (md : List (String × Value)), ts ≠ [] →
      join_tags_and_metadata (some ts) (some md) =
        some (updateDict [("tags", .vlist (ts.map .vstr))] md)) ∧
    (∀ (ts : List String), ts ≠ [] →
      join_tags_and_metadata (some ts) none =
        some [("tags", .vlist (ts.map .vstr))]) ∧
    (∀ md, join_tags_and_metadata (some []) md = md) ∧
    (∀ md, join_tags_and_metadata none (some md) = some md) ∧
    (∀ (ts : List String) (md : List (String × Value)) (k : String),
      (md.map Prod.fst).Nodup →
      lookupKey (updateDict [("tags", Value.vlist (ts.map .vstr))] md)
        k =
        match lookupKey md k with
        | some v => some v
        | none => lookupKey [("tags", Value.vlist (ts.map .vstr))] k) ∧
    join_tags_and_metadata (some ["a", "b"]) (some [("k", .vstr "v")]) =
      some [("tags", .vlist [.vstr "a", .vstr "b"]), ("k", .vstr "v")] ∧
    join_tags_and_metadata (some []) (some [("k", .vstr "v")]) =
      some [("k", .vstr "v")] := by
  refine ⟨rfl, ?_, ?_, fun md => rfl, fun md => rfl, ?_, rfl, rfl⟩
  · intro ts md h
    cases ts with
    | nil => exact absurd rfl h
    | cons a as => simp [join_tags_and_metadata]
  · intro ts h
    cases ts with
    | nil => exact absurd rfl h
    | cons a as => simp [join_tags_and_metadata]
  · intro ts md k hnd
    have h := lookupKey_updateDict
      [("tags", Value.vlist (ts.map Value.vstr))] md k hnd
    cases hmd : lookupKey md k <;> rw [hmd] at h <;> exact h

/-- Witness for C7: merging tags `["a","b"]` with metadata
`{"k": "v"}` yields the tags entry followed by the metadata entry. -/
theorem C7_join_witness :
    join_tags_and_metadata (some ["a", "b"]) (some [("k", .vstr "v")]) =
      some (updateDict [("tags", .vlist [.vstr "a", .vstr "b"])]
        [("k", .vstr "v")]) :=
  C7_join_tags_and_metadata.2.1 ["a", "b"] [("k", .vstr "v")]
    (by decide)

theorem filterStep (k : String) (o : Option Value)
    (rest : List (String × Value)) :
    List.filter (fun kv => !kv.2.isNone) ((k, o.getD Value.vnone) :: rest)
      = paramEntry k o ++ List.filter (fun kv => !kv.2.isNone) rest := by
  cases o with
  | none => simp [paramEntry, Value.isNone, List.filter_cons]
  | some v =>
    cases v <;> simp [paramEntry, Value.isNone, List.filter_cons]

theorem fmStep (ip : List (String × Value)) (k : String)
    (ks : List String) :
    List.filterMap (fun k' =>
      match lookupKey ip k' with
      | some v => if v.isNone then none else some (k', v)
      | none => none) (k :: ks) =
      paramEntry k (lookupKey ip k) ++
        List.filterMap (fun k' =>
          match lookupKey ip k' with
          | some v => if v.isNone then none else some (k', v)
          | none => none) ks := by
  cases ho : lookupKey ip k with
  | none => simp [paramEntry, List.filterMap_cons, ho]
  | some v =>
    cases v <;> simp [paramEntry, Value.isNone, List.filterMap_cons, ho]

theorem modelParams_eq_spec (ip : List (String × Value)) :
    modelParamsRaw (.vdict ip) = .ok (specModelParams ip) := by
  show Except.ok (List.filter (fun kv => !kv.2.isNone)
    [("temperature", (lookupKey ip "temperature").getD Value.vnone),
     ("max_tokens", (lookupKey ip "max_tokens").getD Value.vnone),
     ("top_p", (lookupKey ip "top_p").getD Value.vnone),
     ("frequency_penalty",
       (lookupKey ip "frequency_penalty").getD Value.vnone),
     ("presence_penalty",
       (lookupKey ip "presence_penalty").getD Value.vnone),
     ("request_timeout",
       (lookupKey ip "request_timeout").getD Value.vnone)]) =
    Except.ok (specModelParams ip)
  congr 1
  unfold specModelParams
  rw [filterStep, filterStep, filterStep, filterStep, filterStep,
    filterStep, fmStep, fmStep, fmStep, fmStep, fmStep, fmStep]
  rfl

/-- C9. The model-parameter extraction keeps exactly the keys among
{temperature, max_tokens, top_p, frequency_penalty, presence_penalty,
request_timeout} whose value in the invocation parameters is present
and non-null, with those same values (proved as a refinement against
`specModelParams`, written from the spec's words); the claim's concrete
example yields exactly `{"temperature": 0.7}`; and a generation start
carrying that invocation-parameters mapping stores a generation whose
`model_parameters` are exactly that mapping. -/
theorem C9_model_parameters :
    (∀ ip : List (String × Value),
      modelParamsRaw (.vdict ip) = .ok (specModelParams ip)) ∧
    modelParamsRaw (.vdict [("temperature", .vnum 7 1),
      ("max_tokens", .vnone)]) = .ok [("temperature", .vnum 7 1)] ∧
    Option.map (fun h => h.modelParameters)
      (lookupKey (stateAfter (on_llm_start (fun _ _ => .ok (some "gpt"))
        (.vdict []) ["hi"] "g" (some "p") none none
        [("invocation_params", .vdict [("temperature", .vnum 7 1),
          ("max_tokens", .vnone)])] egStateActive)).runs "g") =
      some [("temperature", .vnum 7 1)] :=
  ⟨modelParams_eq_spec, rfl, rfl⟩


/-- C8. `_extract_response` returns the stripped text when the
candidate's text is non-null and non-empty after stripping, and
otherwise the message's structured `additional_kwargs`; and
`on_llm_end`, on a registered run and a well-formed response, closes
the handle with the value extracted from the last candidate of the
last generation batch (`response.generations[-1][-1]`). -/
theorem C8_response_extraction :
    (∀ c t, c.text = some t → pyStrip t ≠ "" →
      extract_response c = .ok (.vstr (pyStrip t))) ∧
    (∀ c m,
      (c.text = none ∨ ∃ t, c.text = some t ∧ pyStrip t = "") →
      c.messageAdditionalKwargs = some m →
      extract_response c = .ok (.vdict m)) ∧
    extract_response
      { text := some "  answer  ", messageAdditionalKwargs := none } =
      .ok (.vstr "answer") ∧
    extract_response
      { text := some "",
        messageAdditionalKwargs := some [("tool", .vstr "x")] } =
      .ok (.vdict [("tool", .vstr "x")]) ∧
    (∀ s runId parentRunId h r batch c v u,
      lookupKey s.runs runId = some h →
      r.generations.getLast? = some batch →
      batch.getLast? = some c →
      (match r.llmOutput with
        | none => Except.ok Value.vnone
        | some lo => pySubscript lo "token_usage") = .ok u →
      extract_response c = .ok v →
      lookupKey (stateAfter (on_llm_end r runId parentRunId s)).runs
        runId =
        some (h.endWith (some v) none none (some u) s.version)) := by
  refine ⟨?_, ?_, rfl, rfl, ?_⟩
  · intro c t ht htrim
    unfold extract_response
    rw [ht]
    simp [htrim]
  · intro c m hblank hm
    unfold extract_response
    rcases hblank with hnone | ⟨t, ht, htrim⟩
    · rw [hnone, hm]
      rfl
    · rw [ht, hm]
      simp [htrim]
  · intro s runId parentRunId h r batch c v u hreg hgl hbl husage hex
    cases hlo : r.llmOutput with
    | none =>
      rw [hlo] at husage
      have hu : u = Value.vnone := by
        have := husage
        simp only [] at this
        exact (Except.ok.inj this).symm
      subst hu
      simp only [on_llm_end, on_llm_end_body, tryExcept, PyM.bind_def,
        PyM.pure_def, getS, liftE, listLast, modifyS, update_trace,
        stateAfter, hreg, hgl, hbl, hlo, hex]
      cases htr : s.trace with
      | none => simp [lookupKey_setKey]
      | some t =>
        by_cases hcond : (parentRunId.isNone && t.id == runId) = true
        · simp [hcond, lookupKey_setKey]
        · have hcond' : (parentRunId.isNone && t.id == runId) = false :=
            by simpa using hcond
          simp [hcond', lookupKey_setKey]
    | some lo =>
      rw [hlo] at husage
      simp only [] at husage
      simp only [on_llm_end, on_llm_end_body, tryExcept, PyM.bind_def,
        PyM.pure_def, getS, liftE, listLast, modifyS, update_trace,
        stateAfter, hreg, hgl, hbl, hlo, husage, hex]
      cases htr : s.trace with
      | none => simp [lookupKey_setKey]
      | some t =>
        by_cases hcond : (parentRunId.isNone && t.id == runId) = true
        · simp [hcond, lookupKey_setKey]
        · have hcond' : (parentRunId.isNone && t.id == runId) = false :=
            by simpa using hcond
          simp [hcond', lookupKey_setKey]

/-- Witness for C8: a concrete `on_llm_end` on the fixture state with a
chat response whose last candidate has blank text and a tool-call
payload ends the registered run with that payload. -/
theorem C8_witness :
    lookupKey (stateAfter (on_llm_end egResponse "p" none
      egStateActive)).runs "p" =
      some (egSpan.endWith (some (.vdict [("tool", .vstr "x")])) none
        none (some Value.vnone) egStateActive.version) :=
  C8_response_extraction.2.2.2.2 egStateActive "p" none egSpan
    egResponse [egCandidate] egCandidate
    (.vdict [("tool", .vstr "x")]) Value.vnone rfl rfl rfl rfl rfl

/-- The claim as stated is wrong for `on_tool_error`: at a concrete
registered run, the stored status message is the raw error object, not
the stringified error the claim (and the other three error paths)
prescribe. -/
theorem C10_counterexample :
    Option.map (fun h => h.statusMessage)
      (lookupKey (stateAfter (on_tool_error ⟨"boom"⟩ "p" none
        egStateActive)).runs "p") = some (some (.vexc "boom")) ∧
    some (some (Value.vexc "boom")) ≠ some (some (Value.vstr "boom")) := by
  refine ⟨rfl, ?_⟩
  intro h
  injection h with h1
  injection h1 with h2
  cases h2

/-- C10 (amended). For every error notification with a registered run
id, the stored handle is replaced under the same run id by its closed
counterpart at error level; the status message is the stringified
error for the chain, llm and retriever paths, but the raw error object
for the tool path (callback.py line 618 passes `error`, not
`str(error)`). -/
theorem C10_error_close_amended :
    (∀ s runId parentRunId h err,
      lookupKey s.runs runId = some h →
      lookupKey (stateAfter (on_chain_error err runId parentRunId
        s)).runs runId =
        some (h.endWith none (some .ERROR) (some (.vstr err.msg)) none
          s.version)) ∧
    (∀ s runId parentRunId h err,
      lookupKey s.runs runId = some h →
      lookupKey (stateAfter (on_llm_error err runId parentRunId
        s)).runs runId =
        some (h.endWith none (some .ERROR) (some (.vstr err.msg)) none
          s.version)) ∧
    (∀ s runId parentRunId h err,
      lookupKey s.runs runId = some h →
      lookupKey (stateAfter (on_retriever_error err runId parentRunId
        s)).runs runId =
        some (h.endWith none (some .ERROR) (some (.vstr err.msg)) none
          s.version)) ∧
    (∀ s runId parentRunId h err,
      lookupKey s.runs runId = some h →
      lookupKey (stateAfter (on_tool_error err runId parentRunId
        s)).runs runId =
        some (h.endWith none (some .ERROR) (some (.vexc err.msg)) none
          s.version)) := by
  refine ⟨fun s runId parentRunId h err hreg => ?_,
    fun s runId parentRunId h err hreg => ?_,
    fun s runId parentRunId h err hreg => ?_,
    fun s runId parentRunId h err hreg => ?_⟩ <;>
  simp only [on_chain_error, on_chain_error_body, on_llm_error,
    on_llm_error_body, on_retriever_error, on_retriever_error_body,
    on_tool_error, on_tool_error_body, tryExcept, PyM.bind_def,
    PyM.pure_def, getS, modifyS, update_trace, stateAfter, hreg] <;>
  (try cases s.trace) <;> (try split) <;> (try split) <;>
  simp_all [lookupKey_setKey]

/-- Witness for C10 (amended): a chain error on a registered run stores
the stringified error at error level. -/
theorem C10_witness :
    lookupKey (stateAfter (on_chain_error ⟨"boom"⟩ "p" none
      egStateActive)).runs "p" =
      some (egSpan.endWith none (some .ERROR) (some (.vstr "boom")) none
        egStateActive.version) :=
  C10_error_close_amended.1 egStateActive "p" none egSpan ⟨"boom"⟩ rfl


theorem chain_end_trace_frame (outputs : List (String × Value))
    (runId : String) (parentRunId : Option String) (s : HandlerState)
    (H : parentRunId ≠ none ∨ s.trace = none ∨
      (∃ t, s.trace = some t ∧ t.id ≠ runId)) :
    (stateAfter (on_chain_end outputs runId parentRunId s)).trace =
      s.trace := by
  cases hl : lookupKey s.runs runId <;>
    simp only [on_chain_end, on_chain_end_body, tryExcept, PyM.bind_def,
      PyM.pure_def, getS, liftE, pyRaise, modifyS, update_trace,
      stateAfter, hl] <;>
    (try cases htr : s.trace) <;> (repeat' split) <;> simp_all

theorem tool_end_trace_frame (output : String) (runId : String)
    (parentRunId : Option String) (s : HandlerState)
    (H : parentRunId ≠ none ∨ s.trace = none ∨
      (∃ t, s.trace = some t ∧ t.id ≠ runId)) :
    (stateAfter (on_tool_end output runId parentRunId s)).trace =
      s.trace := by
  cases hl : lookupKey s.runs runId <;>
    simp only [on_tool_end, on_tool_end_body, tryExcept, PyM.bind_def,
      PyM.pure_def, getS, liftE, pyRaise, modifyS, update_trace,
      stateAfter, hl] <;>
    (try cases htr : s.trace) <;> (repeat' split) <;> simp_all

theorem retriever_end_trace_frame (documents : List Value)
    (runId : String) (parentRunId : Option String) (s : HandlerState)
    (H : parentRunId ≠ none ∨ s.trace = none ∨
      (∃ t, s.trace = some t ∧ t.id ≠ runId)) :
    (stateAfter (on_retriever_end documents runId parentRunId s)).trace =
      s.trace := by
  cases hl : lookupKey s.runs runId <;>
    simp only [on_retriever_end, on_retriever_end_body, tryExcept,
      PyM.bind_def, PyM.pure_def, getS, liftE, pyRaise, modifyS,
      update_trace, stateAfter, hl] <;>
    (try cases htr : s.trace) <;> (repeat' split) <;> simp_all

theorem agent_finish_trace_frame (finish : Value) (runId : String)
    (parentRunId : Option String) (s : HandlerState)
    (H : parentRunId ≠ none ∨ s.trace = none ∨
      (∃ t, s.trace = some t ∧ t.id ≠ runId)) :
    (stateAfter (on_agent_finish finish runId parentRunId s)).trace =
      s.trace := by
  cases hl : lookupKey s.runs runId <;>
    simp only [on_agent_finish, on_agent_finish_body, tryExcept,
      PyM.bind_def, PyM.pure_def, getS, liftE, pyRaise, modifyS,
      update_trace, stateAfter, hl] <;>
    (try cases htr : s.trace) <;> (repeat' split) <;> simp_all

theorem llm_end_trace_frame (r : LLMResult) (runId : String)
    (parentRunId : Option String) (s : HandlerState)
    (H : parentRunId ≠ none ∨ s.trace = none ∨
      (∃ t, s.trace = some t ∧ t.id ≠ runId)) :
    (stateAfter (on_llm_end r runId parentRunId s)).trace = s.trace := by
  cases hl : lookupKey s.runs runId <;>
    cases hg : r.generations.getLast? <;>
    simp only [on_llm_end, on_llm_end_body, tryExcept, PyM.bind_def,
      PyM.pure_def, getS, liftE, listLast, pyRaise, modifyS,
      update_trace, stateAfter, hl, hg] <;>
    (try simp)
  rename_i h batch
  cases hb : batch.getLast? with
  | none => simp [hb]
  | some c =>
    cases hlo : r.llmOutput with
    | none =>
      cases hex : extract_response c with
      | error e => simp [hb, hlo, hex]
      | ok v =>
        simp only [hb, hlo, hex]
        (try cases htr : s.trace) <;> (repeat' split) <;> simp_all
    | some lo =>
      cases hu : pySubscript lo "token_usage" with
      | error e => simp [hb, hlo, hu]
      | ok u =>
        cases hex : extract_response c with
        | error e => simp [hb, hlo, hu, hex]
        | ok v =>
          simp only [hb, hlo, hu, hex]
          (try cases htr : s.trace) <;> (repeat' split) <;> simp_all

theorem chain_end_trace_update (outputs : List (String × Value))
    (runId : String) (s : HandlerState) (t : StatefulTrace)
    (h : StatefulObservation) (htr : s.trace = some t)
    (hid : t.id = runId) (hreg : lookupKey s.runs runId = some h) :
    (stateAfter (on_chain_end outputs runId none s)).trace =
      some (t.update (.vdict outputs)) := by
  simp only [on_chain_end, on_chain_end_body, tryExcept, PyM.bind_def,
    PyM.pure_def, getS, modifyS, update_trace, stateAfter, hreg]
  (try cases htr2 : s.trace) <;> (repeat' split) <;> simp_all

theorem tool_end_trace_update (output : String) (runId : String)
    (s : HandlerState) (t : StatefulTrace) (h : StatefulObservation)
    (htr : s.trace = some t) (hid : t.id = runId)
    (hreg : lookupKey s.runs runId = some h) :
    (stateAfter (on_tool_end output runId none s)).trace =
      some (t.update (.vstr output)) := by
  simp only [on_tool_end, on_tool_end_body, tryExcept, PyM.bind_def,
    PyM.pure_def, getS, modifyS, update_trace, stateAfter, hreg]
  (try cases htr2 : s.trace) <;> (repeat' split) <;> simp_all

theorem retriever_end_trace_update (documents : List Value)
    (runId : String) (s : HandlerState) (t : StatefulTrace)
    (h : StatefulObservation) (htr : s.trace = some t)
    (hid : t.id = runId) (hreg : lookupKey s.runs runId = some h) :
    (stateAfter (on_retriever_end documents runId none s)).trace =
      some (t.update (.vlist documents)) := by
  simp only [on_retriever_end, on_retriever_end_body, tryExcept,
    PyM.bind_def, PyM.pure_def, getS, modifyS, update_trace, stateAfter,
    hreg]
  (try cases htr2 : s.trace) <;> (repeat' split) <;> simp_all

theorem agent_finish_trace_update (finish : Value) (runId : String)
    (s : HandlerState) (t : StatefulTrace) (h : StatefulObservation)
    (htr : s.trace = some t) (hid : t.id = runId)
    (hreg : lookupKey s.runs runId = some h) :
    (stateAfter (on_agent_finish finish runId none s)).trace =
      some (t.update finish) := by
  simp only [on_agent_finish, on_agent_finish_body, tryExcept,
    PyM.bind_def, PyM.pure_def, getS, modifyS, update_trace, stateAfter,
    hreg]
  (try cases htr2 : s.trace) <;> (repeat' split) <;> simp_all

theorem llm_end_trace_update (r : LLMResult) (runId : String)
    (s : HandlerState) (t : StatefulTrace) (h : StatefulObservation)
    (batch : List Candidate) (c : Candidate) (v u : Value)
    (htr : s.trace = some t) (hid : t.id = runId)
    (hreg : lookupKey s.runs runId = some h)
    (hg : r.generations.getLast? = some batch)
    (hb : batch.getLast? = some c)
    (hu : (match r.llmOutput with
      | none => Except.ok Value.vnone
      | some lo => pySubscript lo "token_usage") = .ok u)
    (hex : extract_response c = .ok v) :
    (stateAfter (on_llm_end r runId none s)).trace =
      some (t.update v) := by
  cases hlo : r.llmOutput with
  | none =>
    rw [hlo] at hu
    have hu' : u = Value.vnone := by
      have := hu
      simp only [] at this
      exact (Except.ok.inj this).symm
    subst hu'
    simp only [on_llm_end, on_llm_end_body, tryExcept, PyM.bind_def,
      PyM.pure_def, getS, liftE, listLast, modifyS, update_trace,
      stateAfter, hreg, hg, hb, hlo, hex]
    (try cases htr2 : s.trace) <;> (repeat' split) <;> simp_all
  | some lo =>
    rw [hlo] at hu
    simp only [] at hu
    simp only [on_llm_end, on_llm_end_body, tryExcept, PyM.bind_def,
      PyM.pure_def, getS, liftE, listLast, modifyS, update_trace,
      stateAfter, hreg, hg, hb, hlo, hu, hex]
    (try cases htr2 : s.trace) <;> (repeat' split) <;> simp_all

theorem root_start_end_scenario (sid uid tn ver : Option String)
    (serialized : Value) (inputs : List (String × Value)) (rid : String)
    (outputs : List (String × Value)) (tags : Option (List String))
    (md : Option (List (String × Value)))
    (kwargs : List (String × Value)) (dn nm nm2 : Value)
    (hv : hasKey kwargs "version" = false)
    (hd : chainStartDebugName serialized = .ok dn)
    (h1 : get_langchain_run_name serialized
      (("version", optValue ver) :: kwargs) = .ok nm)
    (h2 : get_langchain_run_name serialized kwargs = .ok nm2) :
    (stateAfter (on_chain_end outputs rid none
      (stateAfter (on_chain_start serialized inputs rid none tags md
        kwargs (initStateless sid uid tn ver))))).tracesCreated = 1 ∧
    Option.map (fun t => t.output)
      (stateAfter (on_chain_end outputs rid none
        (stateAfter (on_chain_start serialized inputs rid none tags md
          kwargs (initStateless sid uid tn ver))))).trace =
      some (.vdict outputs) := by
  cases tn <;>
  simp only [on_chain_start, on_chain_start_body,
    generate_trace_and_parent, generate_trace_and_parent_body,
    on_chain_end, on_chain_end_body, tryExcept, PyM.bind_def,
    PyM.pure_def, getS, modifyS, liftE, pyRaise, update_trace,
    stateAfter, initStateless, mkTrace, hd, hv, h1, h2] <;>
  simp [lookupKey_setKey, setKey, lookupKey, update_trace, stateAfter,
    StatefulTrace.update, modifyS, tryExcept, PyM.bind_def, PyM.pure_def,
    List.find?]

/-- The claim's start-then-end consequence is wrong as stated: on a
freshly constructed stateless handler, a root start with serialized
descriptor `{"name": ""}` creates no trace at all — name resolution
raises `IndexError` on `""[-1]` inside `__generate_trace_and_parent`,
the failure is swallowed, and the subsequent end of the same run id is
dropped — so zero traces are created, not exactly one, and no output
is ever written. -/
theorem C2_counterexample :
    (stateAfter (on_chain_end [("out", .vstr "x")] "r1" none
      (stateAfter (on_chain_start (.vdict [("name", .vstr "")]) [] "r1"
        none none none []
        (initStateless none none none none))))).tracesCreated = 0 ∧
    (stateAfter (on_chain_end [("out", .vstr "x")] "r1" none
      (stateAfter (on_chain_start (.vdict [("name", .vstr "")]) [] "r1"
        none none none []
        (initStateless none none none none))))).trace = none :=
  ⟨rfl, rfl⟩

/-- C2 (amended). For every end notification (chain, tool, retriever,
llm, agent
finish) with no parent, a registered run id, and a run id equal to the
active trace's identifier, the trace record is replaced by its updated
counterpart carrying the notification's output; when the parent is
present, no trace is active, or the trace identifier differs, the
trace reference is left unchanged. Consequently a root start followed
by its end on a freshly constructed stateless handler creates exactly
one trace whose output is the ended value, provided the name
computations evaluated during the root start succeed (the entry
debug-name expression, no `version` key among the keyword overrides,
and name resolution on both the forwarded and the plain overrides);
when one of them fails, no trace is created at all (see the
counterexample). -/
theorem C2_root_trace_update :
    (∀ outputs runId s t h, s.trace = some t → t.id = runId →
      lookupKey s.runs runId = some h →
      (stateAfter (on_chain_end outputs runId none s)).trace =
        some (t.update (.vdict outputs))) ∧
    (∀ output runId s t h, s.trace = some t → t.id = runId →
      lookupKey s.runs runId = some h →
      (stateAfter (on_tool_end output runId none s)).trace =
        some (t.update (.vstr output))) ∧
    (∀ documents runId s t h, s.trace = some t → t.id = runId →
      lookupKey s.runs runId = some h →
      (stateAfter (on_retriever_end documents runId none s)).trace =
        some (t.update (.vlist documents))) ∧
    (∀ finish runId s t h, s.trace = some t → t.id = runId →
      lookupKey s.runs runId = some h →
      (stateAfter (on_agent_finish finish runId none s)).trace =
        some (t.update finish)) ∧
    (∀ r runId s t h batch c v u, s.trace = some t → t.id = runId →
      lookupKey s.runs runId = some h →
      r.generations.getLast? = some batch →
      batch.getLast? = some c →
      (match r.llmOutput with
        | none => Except.ok Value.vnone
        | some lo => pySubscript lo "token_usage") = .ok u →
      extract_response c = .ok v →
      (stateAfter (on_llm_end r runId none s)).trace =
        some (t.update v)) ∧
    (∀ ec s runId p,
      (stateAfter (runEnd ec runId (some p) s)).trace = s.trace) ∧
    (∀ ec s runId parentRunId, s.trace = none →
      (stateAfter (runEnd ec runId parentRunId s)).trace = s.trace) ∧
    (∀ ec s runId parentRunId t, s.trace = some t → t.id ≠ runId →
      (stateAfter (runEnd ec runId parentRunId s)).trace = s.trace) ∧
    (∀ sid uid tn ver serialized inputs rid outputs tags md kwargs
      dn nm nm2,
      hasKey kwargs "version" = false →
      chainStartDebugName serialized = .ok dn →
      get_langchain_run_name serialized
        (("version", optValue ver) :: kwargs) = .ok nm →
      get_langchain_run_name serialized kwargs = .ok nm2 →
      (stateAfter (on_chain_end outputs rid none
        (stateAfter (on_chain_start serialized inputs rid none tags md
          kwargs (initStateless sid uid tn ver))))).tracesCreated = 1 ∧
      Option.map (fun t => t.output)
        (stateAfter (on_chain_end outputs rid none
          (stateAfter (on_chain_start serialized inputs rid none tags md
            kwargs (initStateless sid uid tn ver))))).trace =
        some (.vdict outputs)) := by
  refine ⟨fun outputs runId s t h htr hid hreg =>
      chain_end_trace_update outputs runId s t h htr hid hreg,
    fun output runId s t h htr hid hreg =>
      tool_end_trace_update output runId s t h htr hid hreg,
    fun documents runId s t h htr hid hreg =>
      retriever_end_trace_update documents runId s t h htr hid hreg,
    fun finish runId s t h htr hid hreg =>
      agent_finish_trace_update finish runId s t h htr hid hreg,
    fun r runId s t h batch c v u htr hid hreg hg hb hu hex =>
      llm_end_trace_update r runId s t h batch c v u htr hid hreg hg hb
        hu hex,
    fun ec s runId p => ?_, fun ec s runId parentRunId hn => ?_,
    fun ec s runId parentRunId t ht hid => ?_,
    fun sid uid tn ver serialized inputs rid outputs tags md kwargs dn
      nm nm2 hv hd h1 h2 =>
      root_start_end_scenario sid uid tn ver serialized inputs rid
        outputs tags md kwargs dn nm nm2 hv hd h1 h2⟩
  · cases ec with
    | chain outputs =>
      exact chain_end_trace_frame outputs runId (some p) s
        (Or.inl (Option.some_ne_none p))
    | tool output =>
      exact tool_end_trace_frame output runId (some p) s
        (Or.inl (Option.some_ne_none p))
    | retriever documents =>
      exact retriever_end_trace_frame documents runId (some p) s
        (Or.inl (Option.some_ne_none p))
    | llm r =>
      exact llm_end_trace_frame r runId (some p) s
        (Or.inl (Option.some_ne_none p))
    | agent finish =>
      exact agent_finish_trace_frame finish runId (some p) s
        (Or.inl (Option.some_ne_none p))
  · cases ec with
    | chain outputs =>
      exact chain_end_trace_frame outputs runId parentRunId s
        (Or.inr (Or.inl hn))
    | tool output =>
      exact tool_end_trace_frame output runId parentRunId s
        (Or.inr (Or.inl hn))
    | retriever documents =>
      exact retriever_end_trace_frame documents runId parentRunId s
        (Or.inr (Or.inl hn))
    | llm r =>
      exact llm_end_trace_frame r runId parentRunId s
        (Or.inr (Or.inl hn))
    | agent finish =>
      exact agent_finish_trace_frame finish runId parentRunId s
        (Or.inr (Or.inl hn))
  · cases ec with
    | chain outputs =>
      exact chain_end_trace_frame outputs runId parentRunId s
        (Or.inr (Or.inr ⟨t, ht, hid⟩))
    | tool output =>
      exact tool_end_trace_frame output runId parentRunId s
        (Or.inr (Or.inr ⟨t, ht, hid⟩))
    | retriever documents =>
      exact retriever_end_trace_frame documents runId parentRunId s
        (Or.inr (Or.inr ⟨t, ht, hid⟩))
    | llm r =>
      exact llm_end_trace_frame r runId parentRunId s
        (Or.inr (Or.inr ⟨t, ht, hid⟩))
    | agent finish =>
      exact agent_finish_trace_frame finish runId parentRunId s
        (Or.inr (Or.inr ⟨t, ht, hid⟩))

/-- Witness for C2: ending the root run (whose id equals the active
trace's id) writes the output onto the trace. -/
theorem C2_witness :
    (stateAfter (on_chain_end [("out", .vstr "done")] "t" none
      { egStateActive with runs := [("t", egSpan)] })).trace =
      some (egTrace.update (.vdict [("out", .vstr "done")])) :=
  C2_root_trace_update.1 [("out", .vstr "done")] "t"
    { egStateActive with runs := [("t", egSpan)] } egTrace egSpan rfl
    rfl rfl

theorem generate_root_reset (serialized inputsV : Value) (runId : String)
    (tags : Option (List String)) (md : Option (List (String × Value)))
    (gkwargs : List (String × Value)) (s : HandlerState)
    (t : StatefulTrace) (nm : Value) (hLF : s.hasLangfuse = true)
    (htr : s.trace = some t)
    (h1 : get_langchain_run_name serialized gkwargs = .ok nm) :
    generate_trace_and_parent serialized inputsV runId none tags md
      gkwargs s =
      .ok ((), { s with
        trace := some (mkTrace runId
          (match s.traceName with | some n => .vstr n | none => nm)
          (join_tags_and_metadata tags md) s.version s.sessionId
          s.userId inputsV),
        runs := [], tracesCreated := s.tracesCreated + 1 }) := by
  simp only [generate_trace_and_parent, generate_trace_and_parent_body,
    tryExcept, PyM.bind_def, PyM.pure_def, getS, modifyS, liftE, h1,
    hLF, htr]
  simp [htr, hLF]

theorem chain_start_reset (serialized : Value)
    (inputs : List (String × Value)) (runId : String)
    (tags : Option (List String)) (md : Option (List (String × Value)))
    (kwargs : List (String × Value)) (s : HandlerState)
    (t : StatefulTrace) (dn nm : Value) (hLF : s.hasLangfuse = true)
    (htr : s.trace = some t) (hv : hasKey kwargs "version" = false)
    (hd : chainStartDebugName serialized = .ok dn)
    (h1 : get_langchain_run_name serialized
      (("version", optValue s.version) :: kwargs) = .ok nm) :
    (∀ k, k ≠ runId →
      lookupKey (stateAfter (on_chain_start serialized inputs runId none
        tags md kwargs s)).runs k = none) ∧
    Option.map (fun tr => tr.id)
      (stateAfter (on_chain_start serialized inputs runId none tags md
        kwargs s)).trace = some runId := by
  simp only [on_chain_start, on_chain_start_body, tryExcept,
    PyM.bind_def, PyM.pure_def, getS, modifyS, liftE, pyRaise, hd, hv,
    Bool.false_eq_true, if_false,
    generate_root_reset serialized (.vdict inputs) runId tags md
      (("version", optValue s.version) :: kwargs) s t nm hLF htr h1]
  cases hn2 : get_langchain_run_name serialized kwargs with
  | error e =>
    simp [stateAfter, mkTrace]
    intro k hk
    rfl
  | ok nm2 =>
    cases hrs : s.rootSpan with
    | none =>
      simp [stateAfter, mkTrace, modifyS, tryExcept, PyM.bind_def,
        PyM.pure_def, lookupKey_setKey]
      intro k hk
      simp [setKey, lookupKey, List.find?, hk]
    | some r =>
      simp [stateAfter, mkTrace, modifyS, tryExcept, PyM.bind_def,
        PyM.pure_def, lookupKey_setKey]
      intro k hk
      simp [setKey, lookupKey, List.find?, hk]

theorem llm_action_reset (em : ModelExtractor) (serialized : Value)
    (runId : String) (inputsV : Value) (tags : Option (List String))
    (md : Option (List (String × Value)))
    (kwargs : List (String × Value)) (s : HandlerState)
    (t : StatefulTrace) (nm : Value) (hLF : s.hasLangfuse = true)
    (htr : s.trace = some t)
    (h1 : get_langchain_run_name serialized
      [("version", optValue s.version), ("kwargs", .vdict kwargs)] =
      .ok nm) :
    (∀ k, k ≠ runId →
      lookupKey (stateAfter (on_llm_action em serialized runId inputsV
        none tags md kwargs s)).runs k = none) ∧
    Option.map (fun tr => tr.id)
      (stateAfter (on_llm_action em serialized runId inputsV none tags
        md kwargs s)).trace = some runId := by
  simp only [on_llm_action, on_llm_action_body, tryExcept, PyM.bind_def,
    PyM.pure_def, getS, modifyS, liftE, pyRaise,
    parse_model_and_log_errors, report_error,
    generate_root_reset serialized inputsV runId tags md
      [("version", optValue s.version), ("kwargs", .vdict kwargs)] s t
      nm hLF htr h1]
  cases hem : em serialized kwargs <;>
    (try rename_i o) <;> (try cases o) <;>
    cases hn2 : get_langchain_run_name serialized kwargs <;>
    (try simp only [hn2]) <;>
    (try cases hip : lookupKey kwargs "invocation_params") <;>
    (try simp only [hip]) <;>
    (try rename_i ipv) <;>
    (try cases hmp : modelParamsRaw ipv) <;>
    (try simp only [hmp]) <;>
    cases hrs : s.rootSpan <;>
    simp [stateAfter, mkTrace, modifyS, tryExcept, PyM.bind_def,
      PyM.pure_def, setKey, lookupKey, List.find?] <;>
    (try (intro k hk
          have hb : (runId == k) = false := by
            simp only [beq_eq_false_iff_ne]
            exact Ne.symm hk
          simp [hb]))

theorem generate_stateful_noop (serialized inputsV : Value)
    (runId : String) (parentRunId : Option String)
    (tags : Option (List String)) (md : Option (List (String × Value)))
    (gkwargs : List (String × Value)) (s : HandlerState)
    (hLF : s.hasLangfuse = false) :
    ∃ lg, generate_trace_and_parent serialized inputsV runId parentRunId
      tags md gkwargs s = .ok ((), { s with logged := lg }) := by
  cases hn : get_langchain_run_name serialized gkwargs with
  | error e =>
    refine ⟨s.logged ++ [e], ?_⟩
    simp [generate_trace_and_parent, generate_trace_and_parent_body,
      tryExcept, PyM.bind_def, PyM.pure_def, getS, modifyS, liftE, hn,
      hLF]
  | ok nm =>
    refine ⟨s.logged, ?_⟩
    simp only [generate_trace_and_parent, generate_trace_and_parent_body,
      tryExcept, PyM.bind_def, PyM.pure_def, getS, modifyS, liftE, hn,
      hLF, Bool.and_false, Bool.false_eq_true, if_false]
    rw [← hLF]

theorem chain_start_stateful_trace (serialized : Value)
    (inputs : List (String × Value)) (runId : String)
    (parentRunId : Option String) (tags : Option (List String))
    (md : Option (List (String × Value)))
    (kwargs : List (String × Value)) (s : HandlerState)
    (hLF : s.hasLangfuse = false) :
    (stateAfter (on_chain_start serialized inputs runId parentRunId tags
      md kwargs s)).trace = s.trace := by
  obtain ⟨lg, hgen⟩ := generate_stateful_noop serialized (.vdict inputs)
    runId parentRunId tags md (("version", optValue s.version) :: kwargs)
    s hLF
  cases hd2 : chainStartDebugName serialized <;>
    cases hhv : hasKey kwargs "version" <;>
    simp only [on_chain_start, on_chain_start_body, tryExcept,
      PyM.bind_def, PyM.pure_def, getS, modifyS, liftE, pyRaise, hd2,
      hhv, hgen] <;>
    cases htr : s.trace <;> (try simp only [htr]) <;>
    cases hn2 : get_langchain_run_name serialized kwargs <;>
    (try simp only [hn2]) <;>
    (try cases parentRunId) <;>
    (try rename_i p) <;>
    (try cases hlp : lookupKey s.runs p) <;>
    (try simp only [hlp]) <;>
    cases hrs : s.rootSpan <;> (try simp only [hrs]) <;>
    (repeat' split) <;> (try simp_all [stateAfter])
  all_goals
    (rename_i heqx
     rcases heqx with ⟨-, rfl⟩
     try simp [stateAfter, htr])

theorem chain_start_stateful_runs (serialized : Value)
    (inputs : List (String × Value)) (runId : String)
    (parentRunId : Option String) (tags : Option (List String))
    (md : Option (List (String × Value)))
    (kwargs : List (String × Value)) (s : HandlerState) (k : String)
    (hk : k ≠ runId) (hLF : s.hasLangfuse = false) :
    lookupKey (stateAfter (on_chain_start serialized inputs runId
      parentRunId tags md kwargs s)).runs k = lookupKey s.runs k := by
  obtain ⟨lg, hgen⟩ := generate_stateful_noop serialized (.vdict inputs)
    runId parentRunId tags md (("version", optValue s.version) :: kwargs)
    s hLF
  cases hd2 : chainStartDebugName serialized <;>
    cases hhv : hasKey kwargs "version" <;>
    simp only [on_chain_start, on_chain_start_body, tryExcept,
      PyM.bind_def, PyM.pure_def, getS, modifyS, liftE, pyRaise, hd2,
      hhv, hgen] <;>
    cases htr : s.trace <;> (try simp only [htr]) <;>
    cases hn2 : get_langchain_run_name serialized kwargs <;>
    (try simp only [hn2]) <;>
    (try cases parentRunId) <;>
    (try rename_i p) <;>
    (try cases hlp : lookupKey s.runs p) <;>
    (try simp only [hlp]) <;>
    cases hrs : s.rootSpan <;> (try simp only [hrs]) <;>
    (repeat' split) <;> (try simp_all [stateAfter, lookupKey_setKey, hk])
  all_goals
    (rename_i heqx
     rcases heqx with ⟨-, rfl⟩
     try simp [stateAfter, lookupKey_setKey, hk])

theorem llm_action_stateful_trace (em : ModelExtractor)
    (serialized : Value) (runId : String) (inputsV : Value)
    (parentRunId : Option String) (tags : Option (List String))
    (md : Option (List (String × Value)))
    (kwargs : List (String × Value)) (s : HandlerState)
    (hLF : s.hasLangfuse = false) :
    (stateAfter (on_llm_action em serialized runId inputsV parentRunId
      tags md kwargs s)).trace = s.trace := by
  obtain ⟨lg, hgen⟩ := generate_stateful_noop serialized inputsV runId
    parentRunId tags md
    [("version", optValue s.version), ("kwargs", .vdict kwargs)] s hLF
  cases hem : em serialized kwargs <;>
    (try rename_i o) <;> (try cases o) <;>
    cases hn2 : get_langchain_run_name serialized kwargs <;>
    (try simp only [hn2]) <;>
    simp only [on_llm_action, on_llm_action_body, tryExcept,
      PyM.bind_def, PyM.pure_def, getS, modifyS, liftE, pyRaise,
      parse_model_and_log_errors, report_error, hem, hgen, hn2] <;>
    (try rcases hip : lookupKey kwargs "invocation_params" with _ | ipv) <;>
    (try simp only [hip]) <;>
    (try cases hmp : modelParamsRaw ipv) <;>
    (try simp only [hmp]) <;>
    (try rcases parentRunId with _ | p) <;>
    (try cases hlp : lookupKey s.runs p) <;>
    (try simp only [hlp]) <;>
    cases hrs : s.rootSpan <;> (try simp only [hrs]) <;>
    cases htr : s.trace <;> (try simp only [htr]) <;>
    (repeat' split) <;> (try simp_all [stateAfter])
  all_goals
    (rename_i heqx
     rcases heqx with ⟨-, rfl⟩
     try simp [stateAfter, htr])

theorem llm_action_stateful_runs (em : ModelExtractor)
    (serialized : Value) (runId : String) (inputsV : Value)
    (parentRunId : Option String) (tags : Option (List String))
    (md : Option (List (String × Value)))
    (kwargs : List (String × Value)) (s : HandlerState) (k : String)
    (hk : k ≠ runId) (hLF : s.hasLangfuse = false) :
    lookupKey (stateAfter (on_llm_action em serialized runId inputsV
      parentRunId tags md kwargs s)).runs k = lookupKey s.runs k := by
  obtain ⟨lg, hgen⟩ := generate_stateful_noop serialized inputsV runId
    parentRunId tags md
    [("version", optValue s.version), ("kwargs", .vdict kwargs)] s hLF
  cases hem : em serialized kwargs <;>
    (try rename_i o) <;> (try cases o) <;>
    cases hn2 : get_langchain_run_name serialized kwargs <;>
    (try simp only [hn2]) <;>
    simp only [on_llm_action, on_llm_action_body, tryExcept,
      PyM.bind_def, PyM.pure_def, getS, modifyS, liftE, pyRaise,
      parse_model_and_log_errors, report_error, hem, hgen, hn2] <;>
    (try rcases hip : lookupKey kwargs "invocation_params" with _ | ipv) <;>
    (try simp only [hip]) <;>
    (try cases hmp : modelParamsRaw ipv) <;>
    (try simp only [hmp]) <;>
    (try rcases parentRunId with _ | p) <;>
    (try cases hlp : lookupKey s.runs p) <;>
    (try simp only [hlp]) <;>
    cases hrs : s.rootSpan <;> (try simp only [hrs]) <;>
    cases htr : s.trace <;> (try simp only [htr]) <;>
    (repeat' split) <;> (try simp_all [stateAfter, lookupKey_setKey, hk])
  all_goals
    (rename_i heqx
     rcases heqx with ⟨-, rfl⟩
     try simp [stateAfter, lookupKey_setKey, hk])

theorem stateAfter_tryExcept_of_ok (m : PyM Unit) (s : HandlerState)
    (h : (m s).isOk = true) :
    stateAfter (tryExcept m s) = stateAfter (m s) := by
  unfold tryExcept stateAfter
  cases hm : m s with
  | ok p => rfl
  | error p =>
    rw [hm] at h
    simp [Except.isOk, Except.toBool] at h

theorem llm_start_unwrap (em : ModelExtractor) (serialized : Value)
    (prompts : List String) (runId : String)
    (parentRunId : Option String) (tags : Option (List String))
    (md : Option (List (String × Value)))
    (kwargs : List (String × Value)) (s : HandlerState) :
    stateAfter (on_llm_start em serialized prompts runId parentRunId
      tags md kwargs s) =
    stateAfter (on_llm_action em serialized runId
      (.vlist (prompts.map .vstr)) parentRunId tags md kwargs s) :=
  stateAfter_tryExcept_of_ok _ s (tryExcept_isOk _ s)

theorem chat_start_unwrap (em : ModelExtractor) (serialized : Value)
    (messages : Value) (runId : String) (parentRunId : Option String)
    (tags : Option (List String)) (md : Option (List (String × Value)))
    (kwargs : List (String × Value)) (s : HandlerState) :
    stateAfter (on_chat_model_start em serialized messages runId
      parentRunId tags md kwargs s) =
    stateAfter (on_llm_action em serialized runId messages parentRunId
      tags md kwargs s) :=
  stateAfter_tryExcept_of_ok _ s (tryExcept_isOk _ s)

/-- The claim as stated is wrong: a root chain start arriving in
stateless mode with a trace already active does not reset the registry
when the unit-name computation fails. Here the serialized descriptor
is `{"name": ""}` — name resolution raises `IndexError` on `""[-1]`
before the reset is reached — and the previously registered run id
`"old"` is still in the registry afterwards, with the old trace still
active. -/
theorem C3_counterexample :
    lookupKey (stateAfter (on_chain_start (.vdict [("name", .vstr "")])
      [] "new" none none none []
      { egStateActive with runs := [("old", egSpan)] })).runs "old" =
      some egSpan ∧
    (stateAfter (on_chain_start (.vdict [("name", .vstr "")]) [] "new"
      none none none []
      { egStateActive with runs := [("old", egSpan)] })).trace =
      some egTrace ∧
    (stateAfter (on_chain_start (.vdict [("name", .vstr "")]) [] "new"
      none none none []
      { egStateActive with runs := [("old", egSpan)] })).tracesCreated =
      1 :=
  ⟨rfl, rfl, rfl⟩

/-- C3 (amended). A root start (chain, llm, or chat-model) arriving at
a stateless handler that already holds an active trace discards the
registry and the active trace before creating the new trace — provided
the name computations evaluated before the reset succeed (for chain
starts: the entry debug-name expression, the absence of a `version`
key among the forwarded overrides, and the resolver on the forwarded
overrides; for llm/chat starts: the resolver on the forwarded
dictionary). Afterwards no identifier other than the new root's is
registered and the active trace is the newly created one (id = the new
run id). If the handler was constructed with a stateful client (no
`Langfuse` client), no reset occurs: the trace reference and every
other registry entry are untouched. -/
theorem C3_root_reset_amended :
    (∀ serialized inputs runId tags md kwargs s t dn nm,
      s.hasLangfuse = true → s.trace = some t →
      hasKey kwargs "version" = false →
      chainStartDebugName serialized = .ok dn →
      get_langchain_run_name serialized
        (("version", optValue s.version) :: kwargs) = .ok nm →
      (∀ k, k ≠ runId →
        lookupKey (stateAfter (on_chain_start serialized inputs runId
          none tags md kwargs s)).runs k = none) ∧
      Option.map (fun tr => tr.id)
        (stateAfter (on_chain_start serialized inputs runId none tags
          md kwargs s)).trace = some runId) ∧
    (∀ em serialized prompts runId tags md kwargs s t nm,
      s.hasLangfuse = true → s.trace = some t →
      get_langchain_run_name serialized
        [("version", optValue s.version), ("kwargs", .vdict kwargs)] =
        .ok nm →
      (∀ k, k ≠ runId →
        lookupKey (stateAfter (on_llm_start em serialized prompts runId
          none tags md kwargs s)).runs k = none) ∧
      Option.map (fun tr => tr.id)
        (stateAfter (on_llm_start em serialized prompts runId none tags
          md kwargs s)).trace = some runId) ∧
    (∀ em serialized messages runId tags md kwargs s t nm,
      s.hasLangfuse = true → s.trace = some t →
      get_langchain_run_name serialized
        [("version", optValue s.version), ("kwargs", .vdict kwargs)] =
        .ok nm →
      (∀ k, k ≠ runId →
        lookupKey (stateAfter (on_chat_model_start em serialized
          messages runId none tags md kwargs s)).runs k = none) ∧
      Option.map (fun tr => tr.id)
        (stateAfter (on_chat_model_start em serialized messages runId
          none tags md kwargs s)).trace = some runId) ∧
    (∀ serialized inputs runId parentRunId tags md kwargs s,
      s.hasLangfuse = false →
      (stateAfter (on_chain_start serialized inputs runId parentRunId
        tags md kwargs s)).trace = s.trace ∧
      (∀ k, k ≠ runId →
        lookupKey (stateAfter (on_chain_start serialized inputs runId
          parentRunId tags md kwargs s)).runs k = lookupKey s.runs k)) ∧
    (∀ em serialized prompts runId parentRunId tags md kwargs s,
      s.hasLangfuse = false →
      (stateAfter (on_llm_start em serialized prompts runId parentRunId
        tags md kwargs s)).trace = s.trace ∧
      (∀ k, k ≠ runId →
        lookupKey (stateAfter (on_llm_start em serialized prompts runId
          parentRunId tags md kwargs s)).runs k = lookupKey s.runs k)) ∧
    (∀ em serialized messages runId parentRunId tags md kwargs s,
      s.hasLangfuse = false →
      (stateAfter (on_chat_model_start em serialized messages runId
        parentRunId tags md kwargs s)).trace = s.trace ∧
      (∀ k, k ≠ runId →
        lookupKey (stateAfter (on_chat_model_start em serialized
          messages runId parentRunId tags md kwargs s)).runs k =
          lookupKey s.runs k)) := by
  refine ⟨fun serialized inputs runId tags md kwargs s t dn nm hLF htr
      hv hd h1 =>
      chain_start_reset serialized inputs runId tags md kwargs s t dn
        nm hLF htr hv hd h1,
    fun em serialized prompts runId tags md kwargs s t nm hLF htr h1 =>
      ?_,
    fun em serialized messages runId tags md kwargs s t nm hLF htr h1 =>
      ?_,
    fun serialized inputs runId parentRunId tags md kwargs s hLF =>
      ⟨chain_start_stateful_trace serialized inputs runId parentRunId
        tags md kwargs s hLF,
       fun k hk => chain_start_stateful_runs serialized inputs runId
        parentRunId tags md kwargs s k hk hLF⟩,
    fun em serialized prompts runId parentRunId tags md kwargs s hLF =>
      ?_,
    fun em serialized messages runId parentRunId tags md kwargs s hLF =>
      ?_⟩
  · rw [llm_start_unwrap em serialized prompts runId none tags md
      kwargs s]
    exact llm_action_reset em serialized runId
      (.vlist (prompts.map .vstr)) tags md kwargs s t nm hLF htr h1
  · rw [chat_start_unwrap em serialized messages runId none tags md
      kwargs s]
    exact llm_action_reset em serialized runId messages tags md kwargs
      s t nm hLF htr h1
  · rw [llm_start_unwrap em serialized prompts runId parentRunId tags
      md kwargs s]
    exact ⟨llm_action_stateful_trace em serialized runId
      (.vlist (prompts.map .vstr)) parentRunId tags md kwargs s hLF,
      fun k hk => llm_action_stateful_runs em serialized runId
        (.vlist (prompts.map .vstr)) parentRunId tags md kwargs s k hk
        hLF⟩
  · rw [chat_start_unwrap em serialized messages runId parentRunId
      tags md kwargs s]
    exact ⟨llm_action_stateful_trace em serialized runId messages
      parentRunId tags md kwargs s hLF,
      fun k hk => llm_action_stateful_runs em serialized runId messages
        parentRunId tags md kwargs s k hk hLF⟩

/-- Witness for C3 (amended): a fresh root chain start with a
resolvable name on a stateless handler holding an active trace leaves
no previously registered id reachable and installs a trace whose id is
the new root's run id. -/
theorem C3_witness :
    lookupKey (stateAfter (on_chain_start
      (.vdict [("name", .vstr "chainA")]) [] "new" none none none []
      egStateActive)).runs "p" = none ∧
    Option.map (fun tr => tr.id)
      (stateAfter (on_chain_start (.vdict [("name", .vstr "chainA")])
        [] "new" none none none [] egStateActive)).trace = some "new" :=
  ⟨(C3_root_reset_amended.1 (.vdict [("name", .vstr "chainA")]) []
      "new" none none [] egStateActive egTrace (.vstr "chainA")
      (.vstr "A") rfl rfl rfl rfl rfl).1 "p" (by decide),
    (C3_root_reset_amended.1 (.vdict [("name", .vstr "chainA")]) []
      "new" none none [] egStateActive egTrace (.vstr "chainA")
      (.vstr "A") rfl rfl rfl rfl rfl).2⟩

theorem generate_parent_active_noop (serialized inputsV : Value)
    (runId p : String) (tags : Option (List String))
    (md : Option (List (String × Value)))
    (gkwargs : List (String × Value)) (s : HandlerState)
    (t : StatefulTrace) (htr : s.trace = some t) :
    ∃ lg, generate_trace_and_parent serialized inputsV runId (some p)
      tags md gkwargs s = .ok ((), { s with logged := lg }) := by
  cases hn : get_langchain_run_name serialized gkwargs with
  | error e =>
    refine ⟨s.logged ++ [e], ?_⟩
    simp [generate_trace_and_parent, generate_trace_and_parent_body,
      tryExcept, PyM.bind_def, PyM.pure_def, getS, modifyS, liftE, hn,
      htr]
  | ok nm =>
    refine ⟨s.logged, ?_⟩
    simp only [generate_trace_and_parent, generate_trace_and_parent_body,
      tryExcept, PyM.bind_def, PyM.pure_def, getS, modifyS, liftE, hn,
      htr, Option.isNone_some, Bool.and_false, Bool.false_and,
      Bool.false_eq_true, if_false, Option.isSome_some, Bool.true_and]
    simp only [show some t = s.trace from htr.symm]

theorem chain_start_missing_parent (serialized : Value)
    (inputs : List (String × Value)) (runId p : String)
    (tags : Option (List String)) (md : Option (List (String × Value)))
    (kwargs : List (String × Value)) (s : HandlerState)
    (hlp : lookupKey s.runs p = none) :
    (stateAfter (on_chain_start serialized inputs runId (some p) tags
      md kwargs s)).runs = s.runs := by
  cases hd2 : chainStartDebugName serialized <;>
    cases hhv : hasKey kwargs "version" <;>
    cases hn1 : get_langchain_run_name serialized
      (("version", optValue s.version) :: kwargs) <;>
    cases hLFb : s.hasLangfuse <;>
    cases htr : s.trace <;>
    cases hn2 : get_langchain_run_name serialized kwargs <;>
    simp only [on_chain_start, on_chain_start_body,
      generate_trace_and_parent, generate_trace_and_parent_body,
      tryExcept, PyM.bind_def, PyM.pure_def, getS, modifyS, liftE,
      pyRaise, hd2, hhv, hn1, hLFb, htr, hn2, hlp] <;>
    (repeat' split) <;> (try simp_all [stateAfter])
  all_goals
    (rename_i heqx
     rcases heqx with ⟨-, rfl⟩
     try simp [stateAfter])

theorem tool_start_missing_parent (serialized : Value)
    (inputStr : String) (runId : String) (parentRunId : Option String)
    (tags : Option (List String)) (md : Option (List (String × Value)))
    (kwargs : List (String × Value)) (s : HandlerState)
    (hlp : (do
      let p ← parentRunId
      lookupKey s.runs p) = none) :
    (stateAfter (on_tool_start serialized inputStr runId parentRunId
      tags md kwargs s)).runs = s.runs := by
  simp only [on_tool_start, on_tool_start_body, tryExcept, PyM.bind_def,
    PyM.pure_def, getS, modifyS, liftE, pyRaise, hlp, stateAfter]

theorem retriever_start_missing_parent (serialized : Value)
    (query : String) (runId : String) (parentRunId : Option String)
    (tags : Option (List String)) (md : Option (List (String × Value)))
    (kwargs : List (String × Value)) (s : HandlerState)
    (hlp : (do
      let p ← parentRunId
      lookupKey s.runs p) = none) :
    (stateAfter (on_retriever_start serialized query runId parentRunId
      tags md kwargs s)).runs = s.runs := by
  simp only [on_retriever_start, on_retriever_start_body, tryExcept,
    PyM.bind_def, PyM.pure_def, getS, modifyS, liftE, pyRaise, hlp,
    stateAfter]

theorem llm_action_missing_parent (em : ModelExtractor)
    (serialized : Value) (runId : String) (inputsV : Value) (p : String)
    (tags : Option (List String)) (md : Option (List (String × Value)))
    (kwargs : List (String × Value)) (s : HandlerState)
    (t : StatefulTrace) (ipv : Value) (mps : List (String × Value))
    (nm2 : Value) (htr : s.trace = some t)
    (hlp : lookupKey s.runs p = none)
    (hn2 : get_langchain_run_name serialized kwargs = .ok nm2)
    (hip : lookupKey kwargs "invocation_params" = some ipv)
    (hmp : modelParamsRaw ipv = .ok mps) :
    Option.map (fun h => (h.kind, h.traceId))
      (lookupKey (stateAfter (on_llm_action em serialized runId inputsV
        (some p) tags md kwargs s)).runs runId) =
      some (.generation, some t.id) := by
  obtain ⟨lg, hgen⟩ := generate_parent_active_noop serialized inputsV
    runId p tags md
    [("version", optValue s.version), ("kwargs", .vdict kwargs)] s t htr
  cases hem : em serialized kwargs <;>
    (try rename_i o) <;> (try cases o) <;>
    simp only [on_llm_action, on_llm_action_body, tryExcept,
      PyM.bind_def, PyM.pure_def, getS, modifyS, liftE, pyRaise,
      parse_model_and_log_errors, report_error, hem, hgen, hn2, hip,
      hmp, hlp, htr, stateAfter] <;>
    simp [lookupKey_setKey, StatefulTrace.generationChild, hlp, htr,
      tryExcept, PyM.bind_def, PyM.pure_def, modifyS, stateAfter]

/-- The claim as stated is wrong for generation starts: an llm start
whose parent run id is absent from the registry does create an entry
under its run id — the generation is attached directly to the active
trace by the final `else` branch of `__on_llm_action` (callback.py
line 683). At this concrete input the registry afterwards holds a
generation handle under `"B"` linked to the trace `"t"`. -/
theorem C4_counterexample :
    Option.map (fun h => (h.kind, h.traceId))
      (lookupKey (stateAfter (on_llm_start (fun _ _ => .ok (some "g"))
        (.vdict []) ["hi"] "B" (some "missing") none none
        [("invocation_params", .vdict [])] egStateActive)).runs "B") =
      some (.generation, some "t") ∧
    (lookupKey (stateAfter (on_llm_start (fun _ _ => .ok (some "g"))
      (.vdict []) ["hi"] "B" (some "missing") none none
      [("invocation_params", .vdict [])] egStateActive)).runs
      "B").isSome = true :=
  ⟨rfl, rfl⟩

/-- C4 (amended). A chain, tool or retriever start whose parent run id
is not registered leaves the registry exactly as it was (in particular
no entry is created under the notification's run id; the failure is
only logged). An llm or chat-model generation start with an
unregistered parent instead attaches the generation directly to the
active trace and does store it under the notification's run id,
whenever the generation content can be computed (name resolution
succeeds, `invocation_params` is a present mapping) and a trace is
active. -/
theorem C4_missing_parent_amended :
    (∀ serialized inputs runId p tags md kwargs s,
      lookupKey s.runs p = none →
      (stateAfter (on_chain_start serialized inputs runId (some p) tags
        md kwargs s)).runs = s.runs) ∧
    (∀ serialized inputStr runId p tags md kwargs s,
      lookupKey s.runs p = none →
      (stateAfter (on_tool_start serialized inputStr runId (some p)
        tags md kwargs s)).runs = s.runs) ∧
    (∀ serialized query runId p tags md kwargs s,
      lookupKey s.runs p = none →
      (stateAfter (on_retriever_start serialized query runId (some p)
        tags md kwargs s)).runs = s.runs) ∧
    (∀ em serialized prompts runId p tags md kwargs s t ipv mps nm2,
      s.trace = some t → lookupKey s.runs p = none →
      get_langchain_run_name serialized kwargs = .ok nm2 →
      lookupKey kwargs "invocation_params" = some ipv →
      modelParamsRaw ipv = .ok mps →
      Option.map (fun h => (h.kind, h.traceId))
        (lookupKey (stateAfter (on_llm_start em serialized prompts
          runId (some p) tags md kwargs s)).runs runId) =
        some (.generation, some t.id)) ∧
    (∀ em serialized messages runId p tags md kwargs s t ipv mps nm2,
      s.trace = some t → lookupKey s.runs p = none →
      get_langchain_run_name serialized kwargs = .ok nm2 →
      lookupKey kwargs "invocation_params" = some ipv →
      modelParamsRaw ipv = .ok mps →
      Option.map (fun h => (h.kind, h.traceId))
        (lookupKey (stateAfter (on_chat_model_start em serialized
          messages runId (some p) tags md kwargs s)).runs runId) =
        some (.generation, some t.id)) := by
  refine ⟨fun serialized inputs runId p tags md kwargs s hlp =>
      chain_start_missing_parent serialized inputs runId p tags md
        kwargs s hlp,
    fun serialized inputStr runId p tags md kwargs s hlp =>
      tool_start_missing_parent serialized inputStr runId (some p) tags
        md kwargs s hlp,
    fun serialized query runId p tags md kwargs s hlp =>
      retriever_start_missing_parent serialized query runId (some p)
        tags md kwargs s hlp,
    fun em serialized prompts runId p tags md kwargs s t ipv mps nm2
      htr hlp hn2 hip hmp => ?_,
    fun em serialized messages runId p tags md kwargs s t ipv mps nm2
      htr hlp hn2 hip hmp => ?_⟩
  · rw [llm_start_unwrap em serialized prompts runId (some p) tags md
      kwargs s]
    exact llm_action_missing_parent em serialized runId
      (.vlist (prompts.map .vstr)) p tags md kwargs s t ipv mps nm2 htr
      hlp hn2 hip hmp
  · rw [chat_start_unwrap em serialized messages runId (some p) tags md
      kwargs s]
    exact llm_action_missing_parent em serialized runId messages p tags
      md kwargs s t ipv mps nm2 htr hlp hn2 hip hmp

/-- Witness for C4 (amended): a chain start with an unregistered
parent on the fixture state leaves the registry untouched. -/
theorem C4_witness :
    (stateAfter (on_chain_start (.vdict [("name", .vstr "x")]) []
      "child" (some "missing") none none [] egStateActive)).runs =
      egStateActive.runs :=
  C4_missing_parent_amended.1 (.vdict [("name", .vstr "x")]) [] "child"
    "missing" none none [] egStateActive rfl
